import Mathlib

/-!
# Alert dispatch engine of 9volt (`alerter/alerter.go`)

A shallow embedding of `validateMessage`, `loadAlerterConfig` and
`handleMessage`, followed by the properties established about them.

Conventions of the embedding

* A Go `error` is its text: `Option String` is "an error or nil".
* A Go map that may be nil is `Option (List (String × String))`.
* The collaborators (config store, notifiers) are fields of `Alerter`; each
  call takes the state of the outside world and returns the new one, so a
  collaborator may answer differently every time it is called.
* `ValidateConfig` and `Send` are handed pointers. What a callee writes
  through a pointer it is handed is part of what the call returns: the config
  as `ValidateConfig` leaves it, the message as `Send` leaves it, and the
  elements `Send` writes into the array behind `msg.Key`, which is the array
  the `for ... range msg.Key` loop reads its keys from. The config is not read
  again after `Send`, so what `Send` writes into it is not kept. A callee
  writes only through the pointers it is handed in that call; the store, the
  logger and the error-reporting collaborator are handed none.
* `encoding/json` is a field of `Alerter` too: `jsonUnmarshal` maps a payload
  to an error, to a nil pointer (`.ok none`) or to a config object.
* Every call to a collaborator and every log line is an `Event`; a run of the
  handler is the list of events it produced, in program order.
* A nil dereference is an explicit outcome (`panicked`), not a missing case.
-/

namespace alerter

/-! ## Data model -/

/-- The struct `AlerterConfig` (alerter.go:23-27). -/
structure AlerterConfig where
  Type_ : String
  Description : String
  Options : Option (List (String × String))
deriving DecidableEq, Repr

/-- The struct `Message` (alerter.go:38-47). -/
structure Message where
  Type_ : String
  Key : List String
  Title : String
  Text : String
  Source : String
  Count : Int
  Contents : Option (List (String × String))
  uuid : String
deriving DecidableEq, Repr

instance instDecidableEqExcept {ε α : Type} [DecidableEq ε] [DecidableEq α] :
    DecidableEq (Except ε α)
  | .ok x, .ok y => if h : x = y then isTrue (by rw [h]) else isFalse (by intro c; cases c; exact h rfl)
  | .error x, .error y =>
    if h : x = y then isTrue (by rw [h]) else isFalse (by intro c; cases c; exact h rfl)
  | .ok _, .error _ => isFalse (by intro c; cases c)
  | .error _, .ok _ => isFalse (by intro c; cases c)

/-- Everything the handler does that is visible outside it, one constructor per
kind of call site. -/
inductive Event where
  /-- Call of `a.Config.DalClient.FetchAlerterConfig(key)` and what it returned. -/
  | fetch (key : String) (result : Except String String)
  /-- Call of `a.Alerters[ty].ValidateConfig(cfg)`, with the config as it was
  handed over, and the error it returned, if any. -/
  | validateConfig (ty : String) (cfg : AlerterConfig) (result : Option String)
  /-- Call of `a.Alerters[ty].Send(msg, cfg)`, with the message and the config
  as they were handed over, and the error it returned, if any. -/
  | send (ty : String) (msg : Message) (cfg : AlerterConfig) (result : Option String)
  /-- Call of `a.Config.EQClient.AddWithErrorLog(level, text)`. -/
  | addWithErrorLog (level : String) (text : String)
  /-- A line written by `log.Errorf` or `log.Error`. -/
  | logError (text : String)
  /-- The `log.Debugf` before each `Send` (alerter.go:126). -/
  | sendingTrace (text : String)
  /-- The `log.Debugf` that closes a run without errors (alerter.go:140). -/
  | successTrace (text : String)
deriving DecidableEq

/-- What a call of `ValidateConfig(cfg)` returns and leaves behind. -/
structure Validated (σ : Type) where
  err : Option String
  /-- The config behind the pointer after the call. -/
  cfg : AlerterConfig
  state : σ

/-- What a call of `Send(msg, cfg)` returns and leaves behind. -/
structure Sent (σ : Type) where
  err : Option String
  /-- The message behind the pointer after the call. -/
  msg : Message
  /-- The element writes `msg.Key[i] = v` made on the array the loop ranges
  over, in order. -/
  keyWrites : List (Nat × String)
  state : σ

/-- The interface `IAlerter` (alerter.go:17-21) over a world state `σ`. -/
structure IAlerter (σ : Type) where
  Send : Message → AlerterConfig → σ → Sent σ
  Identify : String
  ValidateConfig : AlerterConfig → σ → Validated σ

/-- The struct `Alerter` (alerter.go:29-36), reduced to what the handler reads:
the identifier, the notifier registry, the store client reached through
`Config.DalClient`, and the JSON decoder for `*AlerterConfig`. -/
structure Alerter (σ : Type) where
  Identifier : String
  Alerters : String → Option (IAlerter σ)
  FetchAlerterConfig : String → σ → Except String String × σ
  jsonUnmarshal : String → Except String (Option AlerterConfig)

/-! ## Formatting -/

/-- What `%v` prints for a `[]string`: the elements between brackets, separated
by one space. -/
def fmtStrings (xs : List String) : String :=
  "[" ++ " ".intercalate xs ++ "]"

/-- What `%v` prints for an `int` that is a length. -/
def fmtInt (n : Nat) : String := toString n

/-- Modelled from the spec: `util.StringSliceContains`, whose source is in
package `util`; the spec reads the call as "type is one of the recognized
classifications", that is membership by string equality. -/
def StringSliceContains (stringSlice : List String) (data : String) : Bool :=
  stringSlice.contains data

/-! ## validateMessage (alerter.go:174-194) -/

def validTypes : List String := ["resolve", "critical", "warning"]

/-- The method `validateMessage`; the receiver is not read. -/
def validateMessage (msg : Message) : Option String :=
  if msg.Key.length = 0 then
    some "Message must have at least one element in the 'Key' slice"
  else if msg.Source = "" then
    some "Message must have the 'Source' value filled out"
  else if msg.Contents = none then
    some "Message 'Contents' must be filled out"
  else if !StringSliceContains validTypes msg.Type_ then
    some ("Message 'Type' must contain one of " ++ fmtStrings validTypes)
  else
    none

/-! ## loadAlerterConfig (alerter.go:148-171) -/

/-- How a call of `loadAlerterConfig` ends: with a config, with an error, or in
the nil dereference of `alerterConfig.Type` (alerter.go:164). -/
inductive LoadResult where
  | ok (cfg : AlerterConfig)
  | err (e : String)
  | nilDeref
deriving DecidableEq, Repr

structure Load (σ : Type) where
  events : List Event
  state : σ
  result : LoadResult

def loadAlerterConfig {σ : Type} (a : Alerter σ) (alerterKey : String) (msg : Message)
    (s : σ) : Load σ :=
  match a.FetchAlerterConfig alerterKey s with
  | (.error e, s1) =>
    { events := [.fetch alerterKey (.error e),
                 .logError ("Unable to fetch alerter config for message " ++ msg.uuid ++ ": " ++ e)],
      state := s1, result := .err e }
  | (.ok jsonAlerterConfig, s1) =>
    match a.jsonUnmarshal jsonAlerterConfig with
    | .error e =>
      { events := [.fetch alerterKey (.ok jsonAlerterConfig),
                   .logError ("Unable to unmarshal alerter config for message " ++ msg.uuid
                     ++ ": " ++ e)],
        state := s1, result := .err e }
    | .ok none =>
      -- `alerterConfig` is still nil: reading `alerterConfig.Type` panics
      { events := [.fetch alerterKey (.ok jsonAlerterConfig)], state := s1, result := .nilDeref }
    | .ok (some alerterConfig) =>
      match a.Alerters alerterConfig.Type_ with
      | none =>
        let err := "Unable to find any alerter named " ++ alerterConfig.Type_
        { events := [.fetch alerterKey (.ok jsonAlerterConfig), .logError err],
          state := s1, result := .err err }
      | some _ =>
        { events := [.fetch alerterKey (.ok jsonAlerterConfig)],
          state := s1, result := .ok alerterConfig }

/-! ## handleMessage (alerter.go:96-145) -/

/-- One pass through the body of the `for` loop (alerter.go:109-132). -/
structure Iteration (σ : Type) where
  /-- The `alerterKey` of this pass. -/
  key : String
  /-- What `loadAlerterConfig` returned. -/
  load : LoadResult
  /-- The events of this pass, those of `loadAlerterConfig` included. -/
  events : List Event
  /-- The `errorMessage` appended to `errorList`, if any. -/
  errorMessage : Option String
  /-- The message behind `msg` when the pass ends. -/
  msg : Message
  /-- The element writes made during the pass on the array the loop ranges
  over. -/
  keyWrites : List (Nat × String)
  state : σ
  /-- The pass ended in a nil dereference. -/
  panicked : Bool

def iteration {σ : Type} (a : Alerter σ) (msg : Message) (alerterKey : String) (s : σ) :
    Iteration σ :=
  let l := loadAlerterConfig a alerterKey msg s
  match l.result with
  | .nilDeref =>
    { key := alerterKey, load := l.result, events := l.events, errorMessage := none,
      msg := msg, keyWrites := [], state := l.state, panicked := true }
  | .err e =>
    let errorMessage := "Unable to load alerter key for " ++ msg.uuid ++ ": " ++ e
    { key := alerterKey, load := l.result,
      events := l.events ++ [.logError (a.Identifier ++ ": " ++ errorMessage)],
      errorMessage := some errorMessage, msg := msg, keyWrites := [], state := l.state,
      panicked := false }
  | .ok alerterConfig =>
    match a.Alerters alerterConfig.Type_ with
    | none =>
      -- a method call on the nil interface value of a missing map entry
      { key := alerterKey, load := l.result, events := l.events, errorMessage := none,
        msg := msg, keyWrites := [], state := l.state, panicked := true }
    | some validator =>
      let v := validator.ValidateConfig alerterConfig l.state
      match v.err with
      | some e =>
        let errorMessage := "Unable to validate alerter config for " ++ msg.uuid ++ ": " ++ e
        { key := alerterKey, load := l.result,
          events := l.events ++ [.validateConfig alerterConfig.Type_ alerterConfig (some e),
            .logError (a.Identifier ++ ": " ++ errorMessage)],
          errorMessage := some errorMessage, msg := msg, keyWrites := [], state := v.state,
          panicked := false }
      | none =>
        -- from here on `alerterConfig` is read as `ValidateConfig` left it
        let sending := Event.sendingTrace (a.Identifier ++ ": Sending " ++ msg.uuid
          ++ " to alerter " ++ v.cfg.Type_ ++ "!")
        match a.Alerters v.cfg.Type_ with
        | none =>
          -- a method call on the nil interface value of a missing map entry
          { key := alerterKey, load := l.result,
            events := l.events ++ [.validateConfig alerterConfig.Type_ alerterConfig none, sending],
            errorMessage := none, msg := msg, keyWrites := [], state := v.state,
            panicked := true }
        | some sender =>
          let r := sender.Send msg v.cfg v.state
          match r.err with
          | some e =>
            -- `msg.uuid` is read after `Send` returned
            let errorMessage := "Unable to complete message send for " ++ r.msg.uuid ++ ": " ++ e
            { key := alerterKey, load := l.result,
              events := l.events ++ [.validateConfig alerterConfig.Type_ alerterConfig none,
                sending, .send v.cfg.Type_ msg v.cfg (some e),
                .logError (a.Identifier ++ ": " ++ errorMessage)],
              errorMessage := some errorMessage, msg := r.msg, keyWrites := r.keyWrites,
              state := r.state, panicked := false }
          | none =>
            { key := alerterKey, load := l.result,
              events := l.events ++ [.validateConfig alerterConfig.Type_ alerterConfig none,
                sending, .send v.cfg.Type_ msg v.cfg none],
              errorMessage := none, msg := r.msg, keyWrites := r.keyWrites,
              state := r.state, panicked := false }

/-- The array the loop ranges over after the element writes `writes`. A write
outside the array, which in Go panics inside the notifier, changes nothing
here. -/
def applyWrites (ranged : List String) (writes : List (Nat × String)) : List String :=
  writes.foldl (fun acc w => acc.set w.1 w.2) ranged

/-- The state of the `for` loop when it is left. -/
structure LoopResult (σ : Type) where
  /-- The passes made, in order. -/
  iterations : List (Iteration σ)
  errorList : List String
  /-- The message behind `msg` when the loop is left. -/
  msg : Message
  state : σ
  panicked : Bool

/-- The `for _, alerterKey := range msg.Key` loop (alerter.go:108-133): the
range expression is evaluated once, so the loop makes a fixed number of passes
over one array, `ranged`, and pass `i` reads the element at index `i` as it is
then. The arguments are the number of passes still to make, the index of the
next pass, the message, the array, `errorList` and the world state. -/
def loop {σ : Type} (a : Alerter σ) :
    Nat → Nat → Message → List String → List String → σ → LoopResult σ
  | 0, _, msg, _, errorList, s =>
    { iterations := [], errorList := errorList, msg := msg, state := s, panicked := false }
  | passes + 1, i, msg, ranged, errorList, s =>
    match ranged[i]? with
    | none =>
      -- not reached: the index of a pass is below the length of the array
      { iterations := [], errorList := errorList, msg := msg, state := s, panicked := false }
    | some alerterKey =>
      let it := iteration a msg alerterKey s
      if it.panicked then
        { iterations := [it], errorList := errorList, msg := it.msg, state := it.state,
          panicked := true }
      else
        let errorList1 :=
          match it.errorMessage with
          | some errorMessage => errorList ++ [errorMessage]
          | none => errorList
        let r := loop a passes (i + 1) it.msg (applyWrites ranged it.keyWrites) errorList1
          it.state
        { iterations := it :: r.iterations, errorList := r.errorList, msg := r.msg,
          state := r.state, panicked := r.panicked }

/-- How a run of `handleMessage` ends. -/
inductive Outcome where
  | returned (err : Option String)
  | panicked
deriving DecidableEq, Repr

structure Run (σ : Type) where
  /-- The passes of the loop that were made, in order. -/
  iterations : List (Iteration σ)
  /-- The value of `errorList` when the run ended. -/
  errorList : List String
  /-- The events outside the loop (alerter.go:99 or alerter.go:135-142). -/
  final : List Event
  /-- The message behind `msg` when the run ended. -/
  msg : Message
  state : σ
  outcome : Outcome

/-- The text of the aggregated report (alerter.go:137-138). -/
def aggregatedReport (identifier : String) (msg : Message) (errorList : List String) : String :=
  identifier ++ ": Ran into " ++ fmtInt errorList.length ++ " errors during alert send for "
    ++ msg.Source ++ " (alerters: " ++ fmtStrings msg.Key ++ "); error list: "
    ++ "; ".intercalate errorList

/-- The text of the closing debug line (alerter.go:140-141). -/
def successText (identifier : String) (msg : Message) : String :=
  identifier ++ ": Successfully sent " ++ fmtInt msg.Key.length ++ " alert messages for "
    ++ msg.uuid ++ " (alerters: " ++ fmtStrings msg.Key ++ ")"

def handleMessage {σ : Type} (a : Alerter σ) (msg : Message) (s : σ) : Run σ :=
  match validateMessage msg with
  | some err =>
    { iterations := [], errorList := [],
      final := [.addWithErrorLog "error"
        (a.Identifier ++ ": Unable to validate message " ++ msg.uuid ++ ": " ++ err)],
      msg := msg, state := s, outcome := .returned (some err) }
  | none =>
    let l := loop a msg.Key.length 0 msg msg.Key [] s
    if l.panicked then
      { iterations := l.iterations, errorList := l.errorList, final := [], msg := l.msg,
        state := l.state, outcome := .panicked }
    else if l.errorList.length != 0 then
      { iterations := l.iterations, errorList := l.errorList,
        final := [.addWithErrorLog "error" (aggregatedReport a.Identifier l.msg l.errorList)],
        msg := l.msg, state := l.state, outcome := .returned none }
    else
      { iterations := l.iterations, errorList := l.errorList,
        final := [.successTrace (successText a.Identifier l.msg)],
        msg := l.msg, state := l.state, outcome := .returned none }

/-- The event log of a run. -/
def Run.events {σ : Type} (r : Run σ) : List Event :=
  (r.iterations.map (·.events)).flatten ++ r.final

/-! ## Reading an event log -/

def Event.isFetch : Event → Bool
  | .fetch _ _ => true
  | _ => false

def Event.isValidateConfig : Event → Bool
  | .validateConfig _ _ _ => true
  | _ => false

def Event.isSend : Event → Bool
  | .send _ _ _ _ => true
  | _ => false

/-- A `Send` that returned no error. -/
def Event.isSendOk : Event → Bool
  | .send _ _ _ none => true
  | _ => false

/-- An entry handed to the error-reporting collaborator. -/
def Event.isErrorReport : Event → Bool
  | .addWithErrorLog _ _ => true
  | _ => false

def Event.isSuccessTrace : Event → Bool
  | .successTrace _ => true
  | _ => false

/-- A call of a notifier: `ValidateConfig` or `Send`. -/
def Event.isCall (e : Event) : Bool :=
  e.isValidateConfig || e.isSend

/-- The keys for which the store was asked, in the order of the calls. -/
def fetchedKeys (es : List Event) : List String :=
  es.filterMap fun e =>
    match e with
    | .fetch key _ => some key
    | _ => none

/-- The `Send` calls of a log, each as notifier type, message apart from its
Key sequence, config and returned error. -/
def sendCalls (es : List Event) : List (String × Message × AlerterConfig × Option String) :=
  es.filterMap fun e =>
    match e with
    | .send ty msg cfg result => some (ty, { msg with Key := [] }, cfg, result)
    | _ => none

/-- The events of the passes of a loop, in order. -/
def LoopResult.events {σ : Type} (r : LoopResult σ) : List Event :=
  (r.iterations.map (·.events)).flatten

/-! ## The notifier calls a message asks for -/

/-- The notifier calls the specification asks for, for the keys `keys` in order:
for each key the config is resolved with `loadAlerterConfig`; if that returns a
config, `ValidateConfig` of the notifier registered under the config's type is
called once with it; if that returns no error, `Send` of that same notifier is
called once with the message and that config. A key that fails at any step
does not stop the keys after it. Each call is listed with the error it
returned; the message and the world state are those the earlier calls left. -/
def expectedCalls {σ : Type} (a : Alerter σ) : Message → List String → σ → List Event
  | _, [], _ => []
  | msg, key :: rest, s =>
    let l := loadAlerterConfig a key msg s
    match l.result with
    | .ok cfg =>
      match a.Alerters cfg.Type_ with
      | some notifier =>
        let v := notifier.ValidateConfig cfg l.state
        match v.err with
        | none =>
          let r := notifier.Send msg cfg v.state
          .validateConfig cfg.Type_ cfg none :: .send cfg.Type_ msg cfg r.err
            :: expectedCalls a r.msg rest r.state
        | some e => .validateConfig cfg.Type_ cfg (some e) :: expectedCalls a msg rest v.state
      | none => expectedCalls a msg rest l.state
    | _ => expectedCalls a msg rest l.state

/-! ## Example collaborators -/

/-- A notifier that accepts every config and delivers every message. -/
def slack : IAlerter Unit :=
  { Identify := "slack"
    ValidateConfig := fun cfg s => { err := none, cfg := cfg, state := s }
    Send := fun msg _ s => { err := none, msg := msg, keyWrites := [], state := s } }

/-- A notifier that wants an `address` option. -/
def email : IAlerter Unit :=
  { Identify := "email"
    ValidateConfig := fun cfg s =>
      match cfg.Options with
      | some options =>
        if (options.lookup "address").isSome then { err := none, cfg := cfg, state := s }
        else { err := some "option address is missing", cfg := cfg, state := s }
      | none => { err := some "option address is missing", cfg := cfg, state := s }
    Send := fun msg _ s => { err := none, msg := msg, keyWrites := [], state := s } }

/-- A notifier whose backend is down. -/
def pagerduty : IAlerter Unit :=
  { Identify := "pagerduty"
    ValidateConfig := fun cfg s => { err := none, cfg := cfg, state := s }
    Send := fun msg _ s =>
      { err := some "connection refused", msg := msg, keyWrites := [], state := s } }

def slackConfig : AlerterConfig := { Type_ := "slack", Description := "", Options := none }
def emailConfig : AlerterConfig := { Type_ := "email", Description := "", Options := none }
def pagerdutyConfig : AlerterConfig := { Type_ := "pagerduty", Description := "", Options := none }
def smsConfig : AlerterConfig := { Type_ := "sms", Description := "", Options := none }

/-- The store of the examples: six records; every other key is unknown. The
record `null-key` holds the JSON literal `null`. -/
def exampleStore (key : String) (s : Unit) : Except String String × Unit :=
  if key = "svc-a" then (.ok "\x7b\"type\":\"slack\"\x7d", s)
  else if key = "svc-mail" then (.ok "\x7b\"type\":\"email\"\x7d", s)
  else if key = "svc-page" then (.ok "\x7b\"type\":\"pagerduty\"\x7d", s)
  else if key = "svc-sms" then (.ok "\x7b\"type\":\"sms\"\x7d", s)
  else if key = "broken" then (.ok "\x7b", s)
  else if key = "null-key" then (.ok "null", s)
  else (.error "key not found", s)

/-- The decoder restricted to the payloads of `exampleStore`. The JSON literal
`null` is accepted by `json.Unmarshal` for a pointer target: it sets the
pointer to nil and returns no error. -/
def exampleUnmarshal (payload : String) : Except String (Option AlerterConfig) :=
  if payload = "null" then .ok none
  else if payload = "\x7b\"type\":\"slack\"\x7d" then .ok (some slackConfig)
  else if payload = "\x7b\"type\":\"email\"\x7d" then .ok (some emailConfig)
  else if payload = "\x7b\"type\":\"pagerduty\"\x7d" then .ok (some pagerdutyConfig)
  else if payload = "\x7b\"type\":\"sms\"\x7d" then .ok (some smsConfig)
  else .error "unexpected end of JSON input"

/-- The registry that `Start` builds (alerter.go:67-71) over the example store
and decoder. -/
def exampleAlerter : Alerter Unit :=
  { Identifier := "alerter"
    Alerters := fun ty =>
      if ty = "pagerduty" then some pagerduty
      else if ty = "slack" then some slack
      else if ty = "email" then some email
      else none
    FetchAlerterConfig := exampleStore
    jsonUnmarshal := exampleUnmarshal }

/-- A well-formed critical alert for the given keys. -/
def exampleMessage (keys : List String) : Message :=
  { Type_ := "critical", Key := keys, Title := "disk full", Text := "disk usage above 95%",
    Source := "checker1", Count := 3, Contents := some [("host", "h1")], uuid := "u-1" }

/-- A notifier whose delivery error quotes the keys of the message it was
given. -/
def relay : IAlerter Unit :=
  { Identify := "relay"
    ValidateConfig := fun cfg s => { err := none, cfg := cfg, state := s }
    Send := fun msg _ s =>
      { err := some ("no route for " ++ fmtStrings msg.Key), msg := msg, keyWrites := [],
        state := s } }

def relayConfig : AlerterConfig := { Type_ := "relay", Description := "", Options := none }

/-- An engine whose only notifier is `relay` and whose store maps every key to
a `relay` config. -/
def relayAlerter : Alerter Unit :=
  { Identifier := "alerter"
    Alerters := fun ty => if ty = "relay" then some relay else none
    FetchAlerterConfig := fun _ s => (.ok "\x7b\"type\":\"relay\"\x7d", s)
    jsonUnmarshal := fun _ => .ok (some relayConfig) }

/-- A notifier whose `ValidateConfig` accepts every config and, through the
pointer it is handed, sets the config's type to `email`. -/
def rerouter : IAlerter Unit :=
  { Identify := "slack"
    ValidateConfig := fun cfg s =>
      { err := none, cfg := { cfg with Type_ := "email" }, state := s }
    Send := fun msg _ s => { err := none, msg := msg, keyWrites := [], state := s } }

/-- The example engine with `rerouter` registered under `slack`. -/
def reroutingAlerter : Alerter Unit :=
  { Identifier := "alerter"
    Alerters := fun ty =>
      if ty = "slack" then some rerouter
      else if ty = "email" then some email
      else none
    FetchAlerterConfig := exampleStore
    jsonUnmarshal := exampleUnmarshal }

/-- A notifier whose `Send` delivers and, through the message it is handed,
writes `msg.Key[1] = "nope"`. -/
def retargeter : IAlerter Unit :=
  { Identify := "slack"
    ValidateConfig := fun cfg s => { err := none, cfg := cfg, state := s }
    Send := fun msg _ s =>
      { err := none, msg := { msg with Key := msg.Key.set 1 "nope" },
        keyWrites := [(1, "nope")], state := s } }

/-- The example engine with `retargeter` registered under `slack`. -/
def retargetingAlerter : Alerter Unit :=
  { Identifier := "alerter"
    Alerters := fun ty =>
      if ty = "pagerduty" then some pagerduty
      else if ty = "slack" then some retargeter
      else if ty = "email" then some email
      else none
    FetchAlerterConfig := exampleStore
    jsonUnmarshal := exampleUnmarshal }

/-! ## Notifiers that do not write through the pointers they are handed -/

/-- A `ValidateConfig` of the registry that returns no error has left the
config as it was handed over. -/
def Alerter.keepsConfig {σ : Type} (a : Alerter σ) : Prop :=
  ∀ ty n, a.Alerters ty = some n →
    ∀ cfg s, (n.ValidateConfig cfg s).err = none → (n.ValidateConfig cfg s).cfg = cfg

/-- No `Send` of the registry writes an element of the array behind `msg.Key`. -/
def Alerter.keepsKeys {σ : Type} (a : Alerter σ) : Prop :=
  ∀ ty n, a.Alerters ty = some n → ∀ msg cfg s, (n.Send msg cfg s).keyWrites = []

/-- Every `Send` of the registry leaves the message as it was handed over. -/
def Alerter.keepsMessage {σ : Type} (a : Alerter σ) : Prop :=
  ∀ ty n, a.Alerters ty = some n → ∀ msg cfg s, (n.Send msg cfg s).msg = msg

/-- The error a `Send` of the registry returns does not depend on the Key
sequence of the message. -/
def Alerter.sendIgnoresKey {σ : Type} (a : Alerter σ) : Prop :=
  ∀ ty n, a.Alerters ty = some n →
    ∀ (msg : Message) (keys : List String) cfg s,
      (n.Send { msg with Key := keys } cfg s).err = (n.Send msg cfg s).err

/-! # Properties -/

set_option maxRecDepth 16384

/-! ## loadAlerterConfig and the loop body -/

theorem loadAlerterConfig_ok_registered {σ : Type} (a : Alerter σ) (k : String) (msg : Message)
    (s : σ) (cfg : AlerterConfig) (h : (loadAlerterConfig a k msg s).result = .ok cfg) :
    ∃ n, a.Alerters cfg.Type_ = some n := by
  unfold loadAlerterConfig at h
  split at h
  · simp at h
  · split at h
    · simp at h
    · simp at h
    · split at h
      · simp at h
      · rename_i n hn
        simp at h
        subst h
        exact ⟨n, hn⟩

theorem loadAlerterConfig_events_shape {σ : Type} (a : Alerter σ) (k : String) (msg : Message)
    (s : σ) :
    ∃ r, (loadAlerterConfig a k msg s).events = [Event.fetch k r] ∨
      ∃ t, (loadAlerterConfig a k msg s).events = [Event.fetch k r, Event.logError t] := by
  unfold loadAlerterConfig
  split
  · exact ⟨_, Or.inr ⟨_, rfl⟩⟩
  · split
    · exact ⟨_, Or.inr ⟨_, rfl⟩⟩
    · exact ⟨_, Or.inl rfl⟩
    · split
      · exact ⟨_, Or.inr ⟨_, rfl⟩⟩
      · exact ⟨_, Or.inl rfl⟩

/-- The message is read by `loadAlerterConfig` for its id only. -/
theorem loadAlerterConfig_msg {σ : Type} (a : Alerter σ) (k : String) (m1 m2 : Message) (s : σ) :
    (loadAlerterConfig a k m1 s).result = (loadAlerterConfig a k m2 s).result ∧
    (loadAlerterConfig a k m1 s).state = (loadAlerterConfig a k m2 s).state := by
  unfold loadAlerterConfig
  split
  · simp
  · split
    · simp
    · simp
    · split <;> simp

/-- How `loadAlerterConfig` ends, in terms of the store and the decoder: in the
nil dereference exactly when the fetched payload decodes without error to a nil
config; with an error exactly when the fetch fails, the payload fails to decode,
or the decoded type is not in the registry; with a config exactly when the
payload decodes to that config and its type is in the registry. -/
theorem loadAlerterConfig_result {σ : Type} (a : Alerter σ) (k : String) (msg : Message)
    (s : σ) :
    ((loadAlerterConfig a k msg s).result = .nilDeref ↔
      ∃ p, (a.FetchAlerterConfig k s).1 = .ok p ∧ a.jsonUnmarshal p = .ok none) ∧
    ((∃ e, (loadAlerterConfig a k msg s).result = .err e) ↔
      (∃ e, (a.FetchAlerterConfig k s).1 = .error e) ∨
      (∃ p e, (a.FetchAlerterConfig k s).1 = .ok p ∧ a.jsonUnmarshal p = .error e) ∨
      (∃ p cfg, (a.FetchAlerterConfig k s).1 = .ok p ∧ a.jsonUnmarshal p = .ok (some cfg) ∧
        a.Alerters cfg.Type_ = none)) ∧
    (∀ cfg, (loadAlerterConfig a k msg s).result = .ok cfg ↔
      ∃ p, (a.FetchAlerterConfig k s).1 = .ok p ∧ a.jsonUnmarshal p = .ok (some cfg) ∧
        ∃ n, a.Alerters cfg.Type_ = some n) := by
  unfold loadAlerterConfig
  rcases hf : a.FetchAlerterConfig k s with ⟨e | p, s1⟩
  · simp
  · rcases hu : a.jsonUnmarshal p with e | _ | cfg
    · simp [hu]
    · simp [hu]
    · rcases hn : a.Alerters cfg.Type_ with _ | n
      · simp only [hn]
        simp [hu, hn]
      · simp only [hn]
        simp [hu, hn]

/-- The six ways a pass through the loop body can go. -/
theorem iteration_cases {σ : Type} (a : Alerter σ) (msg : Message) (k : String) (s : σ) :
    let l := loadAlerterConfig a k msg s
    (l.result = .nilDeref ∧
      iteration a msg k s =
        { key := k, load := .nilDeref, events := l.events, errorMessage := none,
          msg := msg, keyWrites := [], state := l.state, panicked := true }) ∨
    (∃ e, l.result = .err e ∧
      iteration a msg k s =
        { key := k, load := .err e,
          events := l.events ++ [.logError (a.Identifier ++ ": "
            ++ ("Unable to load alerter key for " ++ msg.uuid ++ ": " ++ e))],
          errorMessage := some ("Unable to load alerter key for " ++ msg.uuid ++ ": " ++ e),
          msg := msg, keyWrites := [], state := l.state, panicked := false }) ∨
    (∃ cfg n e, l.result = .ok cfg ∧ a.Alerters cfg.Type_ = some n ∧
      (n.ValidateConfig cfg l.state).err = some e ∧
      iteration a msg k s =
        { key := k, load := .ok cfg,
          events := l.events ++ [.validateConfig cfg.Type_ cfg (some e),
            .logError (a.Identifier ++ ": "
              ++ ("Unable to validate alerter config for " ++ msg.uuid ++ ": " ++ e))],
          errorMessage := some ("Unable to validate alerter config for " ++ msg.uuid ++ ": " ++ e),
          msg := msg, keyWrites := [], state := (n.ValidateConfig cfg l.state).state,
          panicked := false }) ∨
    (∃ cfg n, l.result = .ok cfg ∧ a.Alerters cfg.Type_ = some n ∧
      (n.ValidateConfig cfg l.state).err = none ∧
      a.Alerters (n.ValidateConfig cfg l.state).cfg.Type_ = none ∧
      iteration a msg k s =
        { key := k, load := .ok cfg,
          events := l.events ++ [.validateConfig cfg.Type_ cfg none,
            .sendingTrace (a.Identifier ++ ": Sending " ++ msg.uuid ++ " to alerter "
              ++ (n.ValidateConfig cfg l.state).cfg.Type_ ++ "!")],
          errorMessage := none, msg := msg, keyWrites := [],
          state := (n.ValidateConfig cfg l.state).state, panicked := true }) ∨
    (∃ cfg n n2 e, l.result = .ok cfg ∧ a.Alerters cfg.Type_ = some n ∧
      (n.ValidateConfig cfg l.state).err = none ∧
      a.Alerters (n.ValidateConfig cfg l.state).cfg.Type_ = some n2 ∧
      (n2.Send msg (n.ValidateConfig cfg l.state).cfg (n.ValidateConfig cfg l.state).state).err
        = some e ∧
      iteration a msg k s =
        { key := k, load := .ok cfg,
          events := l.events ++ [.validateConfig cfg.Type_ cfg none,
            .sendingTrace (a.Identifier ++ ": Sending " ++ msg.uuid ++ " to alerter "
              ++ (n.ValidateConfig cfg l.state).cfg.Type_ ++ "!"),
            .send (n.ValidateConfig cfg l.state).cfg.Type_ msg (n.ValidateConfig cfg l.state).cfg
              (some e),
            .logError (a.Identifier ++ ": "
              ++ ("Unable to complete message send for "
                ++ (n2.Send msg (n.ValidateConfig cfg l.state).cfg
                    (n.ValidateConfig cfg l.state).state).msg.uuid ++ ": " ++ e))],
          errorMessage := some ("Unable to complete message send for "
                ++ (n2.Send msg (n.ValidateConfig cfg l.state).cfg
                    (n.ValidateConfig cfg l.state).state).msg.uuid ++ ": " ++ e),
          msg := (n2.Send msg (n.ValidateConfig cfg l.state).cfg
                    (n.ValidateConfig cfg l.state).state).msg,
          keyWrites := (n2.Send msg (n.ValidateConfig cfg l.state).cfg
                    (n.ValidateConfig cfg l.state).state).keyWrites,
          state := (n2.Send msg (n.ValidateConfig cfg l.state).cfg
                    (n.ValidateConfig cfg l.state).state).state,
          panicked := false }) ∨
    (∃ cfg n n2, l.result = .ok cfg ∧ a.Alerters cfg.Type_ = some n ∧
      (n.ValidateConfig cfg l.state).err = none ∧
      a.Alerters (n.ValidateConfig cfg l.state).cfg.Type_ = some n2 ∧
      (n2.Send msg (n.ValidateConfig cfg l.state).cfg (n.ValidateConfig cfg l.state).state).err
        = none ∧
      iteration a msg k s =
        { key := k, load := .ok cfg,
          events := l.events ++ [.validateConfig cfg.Type_ cfg none,
            .sendingTrace (a.Identifier ++ ": Sending " ++ msg.uuid ++ " to alerter "
              ++ (n.ValidateConfig cfg l.state).cfg.Type_ ++ "!"),
            .send (n.ValidateConfig cfg l.state).cfg.Type_ msg (n.ValidateConfig cfg l.state).cfg
              none],
          errorMessage := none,
          msg := (n2.Send msg (n.ValidateConfig cfg l.state).cfg
                    (n.ValidateConfig cfg l.state).state).msg,
          keyWrites := (n2.Send msg (n.ValidateConfig cfg l.state).cfg
                    (n.ValidateConfig cfg l.state).state).keyWrites,
          state := (n2.Send msg (n.ValidateConfig cfg l.state).cfg
                    (n.ValidateConfig cfg l.state).state).state,
          panicked := false }) := by
  intro l
  rcases hres : l.result with cfg | e | _
  · obtain ⟨n, hn⟩ := loadAlerterConfig_ok_registered a k msg s cfg hres
    rcases hv : (n.ValidateConfig cfg l.state).err with _ | e
    · rcases hn2 : a.Alerters (n.ValidateConfig cfg l.state).cfg.Type_ with _ | n2
      · right; right; right; left
        refine ⟨cfg, n, rfl, hn, hv, hn2, ?_⟩
        simp only [iteration]
        simp only [l] at hres hv hn2
        simp [hres, hn, hv, hn2]
      · rcases hs : (n2.Send msg (n.ValidateConfig cfg l.state).cfg
            (n.ValidateConfig cfg l.state).state).err with _ | e
        · right; right; right; right; right
          refine ⟨cfg, n, n2, rfl, hn, hv, hn2, hs, ?_⟩
          simp only [iteration]
          simp only [l] at hres hv hn2 hs
          simp [hres, hn, hv, hn2, hs]
        · right; right; right; right; left
          refine ⟨cfg, n, n2, e, rfl, hn, hv, hn2, hs, ?_⟩
          simp only [iteration]
          simp only [l] at hres hv hn2 hs
          simp [hres, hn, hv, hn2, hs]
    · right; right; left
      refine ⟨cfg, n, e, rfl, hn, hv, ?_⟩
      simp only [iteration]
      simp only [l] at hres hv
      simp [hres, hn, hv]
  · right; left
    refine ⟨e, rfl, ?_⟩
    simp only [iteration]
    simp only [l] at hres
    simp [hres]
  · left
    refine ⟨rfl, ?_⟩
    simp only [iteration]
    simp only [l] at hres
    simp [hres]

theorem iteration_key {σ : Type} (a : Alerter σ) (msg : Message) (k : String) (s : σ) :
    (iteration a msg k s).key = k := by
  rcases iteration_cases a msg k s with ⟨_, h⟩ | ⟨_, _, h⟩ | ⟨_, _, _, _, _, _, h⟩ |
    ⟨_, _, _, _, _, _, h⟩ | ⟨_, _, _, _, _, _, _, _, _, h⟩ | ⟨_, _, _, _, _, _, _, _, h⟩ <;>
  rw [h]

theorem iteration_load {σ : Type} (a : Alerter σ) (msg : Message) (k : String) (s : σ) :
    (iteration a msg k s).load = (loadAlerterConfig a k msg s).result := by
  rcases iteration_cases a msg k s with ⟨h0, h⟩ | ⟨_, h0, h⟩ | ⟨_, _, _, h0, _, _, h⟩ |
    ⟨_, _, h0, _, _, _, h⟩ | ⟨_, _, _, _, h0, _, _, _, _, h⟩ | ⟨_, _, _, h0, _, _, _, _, h⟩ <;>
  rw [h, h0]

/-- A pass panics in one of two places: at the nil config of alerter.go:164,
or at alerter.go:127 when `ValidateConfig` returned no error and left the
config with a type that is not in the registry. -/
theorem iteration_panicked_iff {σ : Type} (a : Alerter σ) (msg : Message) (k : String) (s : σ) :
    (iteration a msg k s).panicked = true ↔
      (iteration a msg k s).load = .nilDeref ∨
      ∃ cfg n, (iteration a msg k s).load = .ok cfg ∧ a.Alerters cfg.Type_ = some n ∧
        (n.ValidateConfig cfg (loadAlerterConfig a k msg s).state).err = none ∧
        a.Alerters (n.ValidateConfig cfg (loadAlerterConfig a k msg s).state).cfg.Type_ = none := by
  rcases iteration_cases a msg k s with ⟨_, h⟩ | ⟨_, _, h⟩ | ⟨cfg, n, e, _, hn, hv, h⟩ |
    ⟨cfg, n, _, hn, hv, hn2, h⟩ | ⟨cfg, n, n2, _, _, hn, hv, hn2, _, h⟩ |
    ⟨cfg, n, n2, _, hn, hv, hn2, _, h⟩ <;> rw [h]
  · simp
  · simp
  · simp only [Bool.false_eq_true, false_iff]
    rintro (hc | ⟨c, m, hc, hm, hv2, _⟩)
    · cases hc
    · cases hc
      rw [hn] at hm
      cases hm
      rw [hv] at hv2
      cases hv2
  · simp only [true_iff]
    exact Or.inr ⟨cfg, n, rfl, hn, hv, hn2⟩
  · simp only [Bool.false_eq_true, false_iff]
    rintro (hc | ⟨c, m, hc, hm, _, hn3⟩)
    · cases hc
    · cases hc
      rw [hn] at hm
      cases hm
      rw [hn2] at hn3
      cases hn3
  · simp only [Bool.false_eq_true, false_iff]
    rintro (hc | ⟨c, m, hc, hm, _, hn3⟩)
    · cases hc
    · cases hc
      rw [hn] at hm
      cases hm
      rw [hn2] at hn3
      cases hn3

theorem iteration_fetchedKeys {σ : Type} (a : Alerter σ) (msg : Message) (k : String) (s : σ) :
    fetchedKeys (iteration a msg k s).events = [k] := by
  obtain ⟨r, hl | ⟨t, hl⟩⟩ := loadAlerterConfig_events_shape a k msg s <;>
  rcases iteration_cases a msg k s with ⟨_, h⟩ | ⟨_, _, h⟩ | ⟨_, _, _, _, _, _, h⟩ |
    ⟨_, _, _, _, _, _, h⟩ | ⟨_, _, _, _, _, _, _, _, _, h⟩ | ⟨_, _, _, _, _, _, _, _, h⟩ <;>
  rw [h] <;> simp [hl, fetchedKeys]

theorem iteration_no_outcome_event {σ : Type} (a : Alerter σ) (msg : Message) (k : String)
    (s : σ) :
    ∀ e ∈ (iteration a msg k s).events, e.isErrorReport = false ∧ e.isSuccessTrace = false := by
  obtain ⟨r, hl | ⟨t, hl⟩⟩ := loadAlerterConfig_events_shape a k msg s <;>
  rcases iteration_cases a msg k s with ⟨_, h⟩ | ⟨_, _, h⟩ | ⟨_, _, _, _, _, _, h⟩ |
    ⟨_, _, _, _, _, _, h⟩ | ⟨_, _, _, _, _, _, _, _, _, h⟩ | ⟨_, _, _, _, _, _, _, _, h⟩ <;>
  rw [h] <;> simp [hl, Event.isErrorReport, Event.isSuccessTrace]

/-- A pass that does not panic either records one error entry or makes one
successful `Send`, never both; a pass that panics does neither. -/
theorem iteration_entry_or_sendOk {σ : Type} (a : Alerter σ) (msg : Message) (k : String)
    (s : σ) :
    ((iteration a msg k s).events.filter Event.isSendOk).length
      + (iteration a msg k s).errorMessage.toList.length
      = if (iteration a msg k s).panicked then 0 else 1 := by
  obtain ⟨r, hl | ⟨t, hl⟩⟩ := loadAlerterConfig_events_shape a k msg s <;>
  rcases iteration_cases a msg k s with ⟨_, h⟩ | ⟨_, _, h⟩ | ⟨_, _, _, _, _, _, h⟩ |
    ⟨_, _, _, _, _, _, h⟩ | ⟨_, _, _, _, _, _, _, _, _, h⟩ | ⟨_, _, _, _, _, _, _, _, h⟩ <;>
  rw [h] <;> simp [hl, Event.isSendOk]

theorem iteration_panicked_errorMessage {σ : Type} (a : Alerter σ) (msg : Message) (k : String)
    (s : σ) (h : (iteration a msg k s).panicked = true) :
    (iteration a msg k s).errorMessage = none := by
  rcases iteration_cases a msg k s with ⟨_, h1⟩ | ⟨_, _, h1⟩ | ⟨_, _, _, _, _, _, h1⟩ |
    ⟨_, _, _, _, _, _, h1⟩ | ⟨_, _, _, _, _, _, _, _, _, h1⟩ | ⟨_, _, _, _, _, _, _, _, h1⟩ <;>
  rw [h1] at h ⊢ <;> simp at h ⊢

/-- No `ValidateConfig` and no `Send` of a pass is made on a notifier type that
is missing from the registry. -/
theorem iteration_calls_registered {σ : Type} (a : Alerter σ) (msg : Message) (k : String)
    (s : σ) :
    ∀ e ∈ (iteration a msg k s).events,
      (∀ ty cfg r, e = .validateConfig ty cfg r → ∃ n, a.Alerters ty = some n) ∧
      (∀ ty m cfg r, e = .send ty m cfg r → ∃ n, a.Alerters ty = some n) := by
  intro e he
  obtain ⟨r, hl | ⟨t, hl⟩⟩ := loadAlerterConfig_events_shape a k msg s <;>
  rcases iteration_cases a msg k s with ⟨_, h⟩ | ⟨_, _, h⟩ | ⟨_, n, _, _, hn, _, h⟩ |
    ⟨_, n, _, hn, _, _, h⟩ | ⟨_, n, n2, _, _, hn, _, hn2, _, h⟩ |
    ⟨_, n, n2, _, hn, _, hn2, _, h⟩ <;>
  rw [h] at he <;> simp [hl] at he <;> aesop

/-- The entry a pass records names the step that failed and carries the error
that step returned. -/
theorem iteration_errorMessage {σ : Type} (a : Alerter σ) (msg : Message) (k : String) (s : σ)
    (m : String) (hm : (iteration a msg k s).errorMessage = some m) :
    (∃ e, (iteration a msg k s).load = .err e ∧
      m = "Unable to load alerter key for " ++ msg.uuid ++ ": " ++ e) ∨
    (∃ ty cfg e,
      Event.validateConfig ty cfg (some e) ∈ (iteration a msg k s).events ∧
      m = "Unable to validate alerter config for " ++ msg.uuid ++ ": " ++ e) ∨
    (∃ ty cfg e,
      Event.send ty msg cfg (some e) ∈ (iteration a msg k s).events ∧
      m = "Unable to complete message send for " ++ (iteration a msg k s).msg.uuid
        ++ ": " ++ e) := by
  rcases iteration_cases a msg k s with ⟨_, h⟩ | ⟨e, _, h⟩ | ⟨cfg, _, e, _, _, _, h⟩ |
    ⟨_, _, _, _, _, _, h⟩ | ⟨cfg, n, _, e, _, _, _, _, _, h⟩ | ⟨_, _, _, _, _, _, _, _, h⟩
  · rw [h] at hm
    simp at hm
  · rw [h] at hm ⊢
    simp only [Option.some.injEq] at hm
    exact Or.inl ⟨e, rfl, hm.symm⟩
  · rw [h] at hm ⊢
    simp only [Option.some.injEq] at hm
    exact Or.inr (Or.inl ⟨cfg.Type_, cfg, e, by simp, hm.symm⟩)
  · rw [h] at hm
    simp at hm
  · rw [h] at hm ⊢
    simp only [Option.some.injEq] at hm
    exact Or.inr (Or.inr ⟨(n.ValidateConfig cfg (loadAlerterConfig a k msg s).state).cfg.Type_,
      (n.ValidateConfig cfg (loadAlerterConfig a k msg s).state).cfg, e, by simp, hm.symm⟩)
  · rw [h] at hm
    simp at hm

/-! ## The loop -/

theorem applyWrites_length (ranged : List String) (writes : List (Nat × String)) :
    (applyWrites ranged writes).length = ranged.length := by
  unfold applyWrites
  induction writes generalizing ranged with
  | nil => rfl
  | cons w ws ih => simp [List.foldl_cons, ih]

theorem loop_zero {σ : Type} (a : Alerter σ) (i : Nat) (msg : Message) (ranged errs : List String)
    (s : σ) :
    loop a 0 i msg ranged errs s =
      { iterations := [], errorList := errs, msg := msg, state := s, panicked := false } :=
  rfl

theorem loop_succ_none {σ : Type} (a : Alerter σ) (n i : Nat) (msg : Message)
    (ranged errs : List String) (s : σ) (h : ranged[i]? = none) :
    loop a (n + 1) i msg ranged errs s =
      { iterations := [], errorList := errs, msg := msg, state := s, panicked := false } := by
  simp [loop, h]

theorem loop_succ_panicked {σ : Type} (a : Alerter σ) (n i : Nat) (msg : Message)
    (ranged errs : List String) (s : σ) (k : String) (hk : ranged[i]? = some k)
    (h : (iteration a msg k s).panicked = true) :
    loop a (n + 1) i msg ranged errs s =
      { iterations := [iteration a msg k s], errorList := errs,
        msg := (iteration a msg k s).msg,
        state := (iteration a msg k s).state, panicked := true } := by
  simp [loop, hk, h]

theorem loop_succ_running {σ : Type} (a : Alerter σ) (n i : Nat) (msg : Message)
    (ranged errs : List String) (s : σ) (k : String) (hk : ranged[i]? = some k)
    (h : (iteration a msg k s).panicked = false) :
    loop a (n + 1) i msg ranged errs s =
      { iterations := iteration a msg k s ::
          (loop a n (i + 1) (iteration a msg k s).msg
            (applyWrites ranged (iteration a msg k s).keyWrites)
            (errs ++ (iteration a msg k s).errorMessage.toList)
            (iteration a msg k s).state).iterations,
        errorList := (loop a n (i + 1) (iteration a msg k s).msg
            (applyWrites ranged (iteration a msg k s).keyWrites)
            (errs ++ (iteration a msg k s).errorMessage.toList)
            (iteration a msg k s).state).errorList,
        msg := (loop a n (i + 1) (iteration a msg k s).msg
            (applyWrites ranged (iteration a msg k s).keyWrites)
            (errs ++ (iteration a msg k s).errorMessage.toList)
            (iteration a msg k s).state).msg,
        state := (loop a n (i + 1) (iteration a msg k s).msg
            (applyWrites ranged (iteration a msg k s).keyWrites)
            (errs ++ (iteration a msg k s).errorMessage.toList)
            (iteration a msg k s).state).state,
        panicked := (loop a n (i + 1) (iteration a msg k s).msg
            (applyWrites ranged (iteration a msg k s).keyWrites)
            (errs ++ (iteration a msg k s).errorMessage.toList)
            (iteration a msg k s).state).panicked } := by
  cases hm : (iteration a msg k s).errorMessage <;> simp [loop, hk, h, hm]

theorem getElem?_of_lt_length (ranged : List String) (i : Nat) (h : i < ranged.length) :
    ∃ k, ranged[i]? = some k :=
  ⟨ranged[i], List.getElem?_eq_getElem h⟩

theorem loop_iterations_mem {σ : Type} (a : Alerter σ) (n : Nat) :
    ∀ (i : Nat) (msg : Message) (ranged errs : List String) (s : σ),
      ∀ it ∈ (loop a n i msg ranged errs s).iterations,
        ∃ m k s1, it = iteration a m k s1 := by
  induction n with
  | zero => intro i msg ranged errs s it hit; simp [loop_zero] at hit
  | succ n ih =>
    intro i msg ranged errs s it hit
    rcases hk : ranged[i]? with _ | k
    · rw [loop_succ_none a n i msg ranged errs s hk] at hit
      simp at hit
    · by_cases hp : (iteration a msg k s).panicked = true
      · rw [loop_succ_panicked a n i msg ranged errs s k hk hp] at hit
        simp at hit
        exact ⟨msg, k, s, hit⟩
      · simp at hp
        rw [loop_succ_running a n i msg ranged errs s k hk hp] at hit
        simp at hit
        rcases hit with hit | hit
        · exact ⟨msg, k, s, hit⟩
        · exact ih _ _ _ _ _ it hit

theorem loop_errorList {σ : Type} (a : Alerter σ) (n : Nat) :
    ∀ (i : Nat) (msg : Message) (ranged errs : List String) (s : σ),
      (loop a n i msg ranged errs s).errorList
        = errs ++ (loop a n i msg ranged errs s).iterations.filterMap (·.errorMessage) := by
  induction n with
  | zero => intro i msg ranged errs s; simp [loop_zero]
  | succ n ih =>
    intro i msg ranged errs s
    rcases hk : ranged[i]? with _ | k
    · rw [loop_succ_none a n i msg ranged errs s hk]
      simp
    · by_cases hp : (iteration a msg k s).panicked = true
      · rw [loop_succ_panicked a n i msg ranged errs s k hk hp]
        simp [iteration_panicked_errorMessage a msg k s hp]
      · simp at hp
        rw [loop_succ_running a n i msg ranged errs s k hk hp]
        simp only
        rw [ih]
        cases hm : (iteration a msg k s).errorMessage <;> simp [List.filterMap_cons, hm]

theorem loop_panicked_iff {σ : Type} (a : Alerter σ) (n : Nat) :
    ∀ (i : Nat) (msg : Message) (ranged errs : List String) (s : σ),
      (loop a n i msg ranged errs s).panicked = true
        ↔ ∃ it ∈ (loop a n i msg ranged errs s).iterations, it.panicked = true := by
  induction n with
  | zero => intro i msg ranged errs s; simp [loop_zero]
  | succ n ih =>
    intro i msg ranged errs s
    rcases hk : ranged[i]? with _ | k
    · rw [loop_succ_none a n i msg ranged errs s hk]
      simp
    · by_cases hp : (iteration a msg k s).panicked = true
      · rw [loop_succ_panicked a n i msg ranged errs s k hk hp]
        simp [hp]
      · simp at hp
        rw [loop_succ_running a n i msg ranged errs s k hk hp]
        simp [hp]
        exact ih _ _ _ _ _

/-- The loop makes one pass per element of the array unless a pass panics. -/
theorem loop_length {σ : Type} (a : Alerter σ) (n : Nat) :
    ∀ (i : Nat) (msg : Message) (ranged errs : List String) (s : σ),
      i + n ≤ ranged.length → (loop a n i msg ranged errs s).panicked = false →
      (loop a n i msg ranged errs s).iterations.length = n := by
  induction n with
  | zero => intro i msg ranged errs s _ _; simp [loop_zero]
  | succ n ih =>
    intro i msg ranged errs s hlen h
    obtain ⟨k, hk⟩ := getElem?_of_lt_length ranged i (by omega)
    by_cases hp : (iteration a msg k s).panicked = true
    · rw [loop_succ_panicked a n i msg ranged errs s k hk hp] at h
      simp at h
    · simp at hp
      rw [loop_succ_running a n i msg ranged errs s k hk hp] at h ⊢
      simp only [List.length_cons, Nat.add_right_cancel_iff]
      exact ih _ _ _ _ _ (by rw [applyWrites_length]; omega) h

theorem loop_fetchedKeys {σ : Type} (a : Alerter σ) (n : Nat) :
    ∀ (i : Nat) (msg : Message) (ranged errs : List String) (s : σ),
      fetchedKeys (loop a n i msg ranged errs s).events
        = (loop a n i msg ranged errs s).iterations.map (·.key) := by
  induction n with
  | zero => intro i msg ranged errs s; simp [loop_zero, LoopResult.events, fetchedKeys]
  | succ n ih =>
    intro i msg ranged errs s
    rcases hk : ranged[i]? with _ | k
    · rw [loop_succ_none a n i msg ranged errs s hk]
      simp [LoopResult.events, fetchedKeys]
    · have hf := iteration_fetchedKeys a msg k s
      by_cases hp : (iteration a msg k s).panicked = true
      · rw [loop_succ_panicked a n i msg ranged errs s k hk hp]
        simp [LoopResult.events, iteration_key]
        exact hf
      · simp at hp
        rw [loop_succ_running a n i msg ranged errs s k hk hp]
        have := ih (i + 1) (iteration a msg k s).msg
          (applyWrites ranged (iteration a msg k s).keyWrites)
          (errs ++ (iteration a msg k s).errorMessage.toList) (iteration a msg k s).state
        simp only [LoopResult.events, fetchedKeys] at this hf ⊢
        simp [List.filterMap_append, hf, this, iteration_key]

theorem loop_no_outcome_event {σ : Type} (a : Alerter σ) (n i : Nat) (msg : Message)
    (ranged errs : List String) (s : σ) :
    ∀ e ∈ (loop a n i msg ranged errs s).events,
      e.isErrorReport = false ∧ e.isSuccessTrace = false := by
  intro e he
  simp only [LoopResult.events, List.mem_flatten, List.mem_map] at he
  obtain ⟨es, ⟨it, hit, rfl⟩, he⟩ := he
  obtain ⟨m, k, s1, rfl⟩ := loop_iterations_mem a n i msg ranged errs s it hit
  exact iteration_no_outcome_event a m k s1 e he

theorem loop_counts {σ : Type} (a : Alerter σ) (n : Nat) :
    ∀ (i : Nat) (msg : Message) (ranged errs : List String) (s : σ),
      i + n ≤ ranged.length → (loop a n i msg ranged errs s).panicked = false →
      ((loop a n i msg ranged errs s).events.filter Event.isSendOk).length
        + (loop a n i msg ranged errs s).errorList.length = n + errs.length := by
  induction n with
  | zero => intro i msg ranged errs s _ _; simp [loop_zero, LoopResult.events]
  | succ n ih =>
    intro i msg ranged errs s hlen h
    obtain ⟨k, hk⟩ := getElem?_of_lt_length ranged i (by omega)
    by_cases hp : (iteration a msg k s).panicked = true
    · rw [loop_succ_panicked a n i msg ranged errs s k hk hp] at h
      simp at h
    · simp at hp
      have h1 := iteration_entry_or_sendOk a msg k s
      rw [loop_succ_running a n i msg ranged errs s k hk hp] at h ⊢
      have h2 := ih _ _ _ _ _ (by rw [applyWrites_length]; omega) h
      simp only [LoopResult.events, hp] at h1 h2 ⊢
      simp at h1 h2 ⊢
      omega

/-- The passes of the loop do not depend on the entries recorded before it
started; those entries are kept in front of the new ones. -/
theorem loop_errs {σ : Type} (a : Alerter σ) (n : Nat) :
    ∀ (i : Nat) (msg : Message) (ranged errs : List String) (s : σ),
      loop a n i msg ranged errs s =
        { iterations := (loop a n i msg ranged [] s).iterations,
          errorList := errs ++ (loop a n i msg ranged [] s).errorList,
          msg := (loop a n i msg ranged [] s).msg,
          state := (loop a n i msg ranged [] s).state,
          panicked := (loop a n i msg ranged [] s).panicked } := by
  induction n with
  | zero => intro i msg ranged errs s; simp [loop_zero]
  | succ n ih =>
    intro i msg ranged errs s
    rcases hk : ranged[i]? with _ | k
    · rw [loop_succ_none a n i msg ranged errs s hk, loop_succ_none a n i msg ranged [] s hk]
      simp
    · by_cases hp : (iteration a msg k s).panicked = true
      · rw [loop_succ_panicked a n i msg ranged errs s k hk hp,
          loop_succ_panicked a n i msg ranged [] s k hk hp]
        simp
      · simp at hp
        rw [loop_succ_running a n i msg ranged errs s k hk hp,
          loop_succ_running a n i msg ranged [] s k hk hp]
        rw [ih _ _ _ (errs ++ _), ih _ _ _ ([] ++ _)]
        simp

/-! ## handleMessage -/

theorem handleMessage_of_invalid {σ : Type} (a : Alerter σ) (msg : Message) (s : σ)
    (err : String) (h : validateMessage msg = some err) :
    handleMessage a msg s =
      { iterations := [], errorList := [],
        final := [.addWithErrorLog "error"
          (a.Identifier ++ ": Unable to validate message " ++ msg.uuid ++ ": " ++ err)],
        msg := msg, state := s, outcome := .returned (some err) } := by
  simp [handleMessage, h]

theorem handleMessage_iterations {σ : Type} (a : Alerter σ) (msg : Message) (s : σ)
    (h : validateMessage msg = none) :
    (handleMessage a msg s).iterations
      = (loop a msg.Key.length 0 msg msg.Key [] s).iterations := by
  simp only [handleMessage, h]
  split
  · rfl
  · split <;> rfl

theorem handleMessage_errorList {σ : Type} (a : Alerter σ) (msg : Message) (s : σ)
    (h : validateMessage msg = none) :
    (handleMessage a msg s).errorList
      = (loop a msg.Key.length 0 msg msg.Key [] s).errorList := by
  simp only [handleMessage, h]
  split
  · rfl
  · split <;> rfl

theorem handleMessage_msg {σ : Type} (a : Alerter σ) (msg : Message) (s : σ)
    (h : validateMessage msg = none) :
    (handleMessage a msg s).msg = (loop a msg.Key.length 0 msg msg.Key [] s).msg := by
  simp only [handleMessage, h]
  split
  · rfl
  · split <;> rfl

theorem handleMessage_outcome {σ : Type} (a : Alerter σ) (msg : Message) (s : σ)
    (h : validateMessage msg = none) :
    (handleMessage a msg s).outcome
      = if (loop a msg.Key.length 0 msg msg.Key [] s).panicked then .panicked
        else .returned none := by
  simp only [handleMessage, h]
  split
  · rfl
  · split <;> rfl

theorem handleMessage_running {σ : Type} (a : Alerter σ) (msg : Message) (s : σ)
    (hv : validateMessage msg = none) (hr : (handleMessage a msg s).outcome ≠ .panicked) :
    (loop a msg.Key.length 0 msg msg.Key [] s).panicked = false := by
  rw [handleMessage_outcome a msg s hv] at hr
  by_contra hc
  simp at hc
  simp [hc] at hr

theorem handleMessage_final {σ : Type} (a : Alerter σ) (msg : Message) (s : σ)
    (h : validateMessage msg = none) :
    (handleMessage a msg s).final
      = if (loop a msg.Key.length 0 msg msg.Key [] s).panicked then []
        else if (loop a msg.Key.length 0 msg msg.Key [] s).errorList = [] then
          [.successTrace (successText a.Identifier (handleMessage a msg s).msg)]
        else [.addWithErrorLog "error"
          (aggregatedReport a.Identifier (handleMessage a msg s).msg
            (loop a msg.Key.length 0 msg msg.Key [] s).errorList)] := by
  rw [handleMessage_msg a msg s h]
  simp only [handleMessage, h]
  by_cases hp : (loop a msg.Key.length 0 msg msg.Key [] s).panicked = true
  · simp [hp]
  · by_cases he : (loop a msg.Key.length 0 msg msg.Key [] s).errorList = []
    · simp [hp, he]
    · simp [hp, he]

theorem handleMessage_loop_events {σ : Type} (a : Alerter σ) (msg : Message) (s : σ)
    (h : validateMessage msg = none) :
    (handleMessage a msg s).events
      = (loop a msg.Key.length 0 msg msg.Key [] s).events ++ (handleMessage a msg s).final := by
  simp [Run.events, LoopResult.events, handleMessage_iterations a msg s h]

/-- The events outside the loop are no store or notifier calls. -/
theorem handleMessage_final_no_call {σ : Type} (a : Alerter σ) (msg : Message) (s : σ) :
    (handleMessage a msg s).final.filter Event.isCall = [] ∧
    (handleMessage a msg s).final.filter Event.isSend = [] ∧
    sendCalls (handleMessage a msg s).final = [] ∧
    fetchedKeys (handleMessage a msg s).final = [] := by
  cases hv : validateMessage msg with
  | some err => simp [handleMessage_of_invalid a msg s err hv, Event.isCall, Event.isSend,
      Event.isValidateConfig, sendCalls, fetchedKeys]
  | none =>
    rw [handleMessage_final a msg s hv]
    split
    · simp [sendCalls, fetchedKeys]
    · split <;> simp [Event.isCall, Event.isSend, Event.isValidateConfig, sendCalls, fetchedKeys]

/-- With notifiers whose successful `ValidateConfig` leaves the config as it
was, a run panics exactly when one of its passes decoded a payload to a nil
config. -/
theorem handleMessage_panicked_iff {σ : Type} (a : Alerter σ) (msg : Message) (s : σ)
    (hc : a.keepsConfig) :
    (handleMessage a msg s).outcome = .panicked
      ↔ ∃ it ∈ (handleMessage a msg s).iterations, it.load = .nilDeref := by
  have key : ∀ m k s1, (iteration a m k s1).panicked = true
      ↔ (iteration a m k s1).load = .nilDeref := by
    intro m k s1
    rw [iteration_panicked_iff]
    constructor
    · rintro (h | ⟨cfg, n, _, hn, hv, hn2⟩)
      · exact h
      · rw [hc _ n hn cfg _ hv, hn] at hn2
        cases hn2
    · exact Or.inl
  cases hv : validateMessage msg with
  | some err => simp [handleMessage_of_invalid a msg s err hv]
  | none =>
    rw [handleMessage_outcome a msg s hv, handleMessage_iterations a msg s hv]
    have h1 := loop_panicked_iff a msg.Key.length 0 msg msg.Key [] s
    constructor
    · intro h
      have hp : (loop a msg.Key.length 0 msg msg.Key [] s).panicked = true := by
        by_contra hc
        simp [hc] at h
      obtain ⟨it, hit, hpan⟩ := h1.1 hp
      obtain ⟨m, k, s1, rfl⟩ := loop_iterations_mem a _ _ _ _ _ _ it hit
      exact ⟨_, hit, (key m k s1).1 hpan⟩
    · rintro ⟨it, hit, hl⟩
      obtain ⟨m, k, s1, rfl⟩ := loop_iterations_mem a _ _ _ _ _ _ it hit
      have hp := h1.2 ⟨_, hit, (key m k s1).2 hl⟩
      simp [hp]

/-- When no pass panics: the failing keys and the keys that were sent add up to
the keys of the message, and the run closes with the aggregated report if a key
failed and with the success trace otherwise. -/
theorem handleMessage_counts_of_returned {σ : Type} (a : Alerter σ) (msg : Message) (s : σ)
    (hv : validateMessage msg = none) (hr : (handleMessage a msg s).outcome ≠ .panicked) :
    ((handleMessage a msg s).events.filter Event.isSendOk).length
        + (handleMessage a msg s).errorList.length = msg.Key.length ∧
    (((handleMessage a msg s).events.filter Event.isSendOk).length < msg.Key.length →
      (handleMessage a msg s).final = [.addWithErrorLog "error"
        (aggregatedReport a.Identifier (handleMessage a msg s).msg
          (handleMessage a msg s).errorList)]) ∧
    (((handleMessage a msg s).events.filter Event.isSendOk).length = msg.Key.length →
      (handleMessage a msg s).errorList = [] ∧
      (handleMessage a msg s).final
        = [.successTrace (successText a.Identifier (handleMessage a msg s).msg)]) := by
  have hp := handleMessage_running a msg s hv hr
  have hc := loop_counts a msg.Key.length 0 msg msg.Key [] s (by omega) hp
  have hf := handleMessage_final a msg s hv
  rw [handleMessage_loop_events a msg s hv, handleMessage_errorList a msg s hv, hf]
  simp only [hp, Bool.false_eq_true, if_false] at hf ⊢
  by_cases he : (loop a msg.Key.length 0 msg msg.Key [] s).errorList = []
  · simp [he, Event.isSendOk] at hc ⊢
    exact ⟨hc, by omega⟩
  · have hlen : 0 < (loop a msg.Key.length 0 msg msg.Key [] s).errorList.length :=
      List.length_pos.2 he
    simp [he, Event.isSendOk] at hc ⊢
    refine ⟨hc, ?_⟩
    omega

/-- When no pass panics the run emits exactly one outcome: one error report
or one success trace. -/
theorem handleMessage_one_outcome_of_returned {σ : Type} (a : Alerter σ) (msg : Message)
    (s : σ) (hr : (handleMessage a msg s).outcome ≠ .panicked) :
    ((handleMessage a msg s).events.filter Event.isErrorReport).length
      + ((handleMessage a msg s).events.filter Event.isSuccessTrace).length = 1 := by
  cases hv : validateMessage msg with
  | some err =>
    simp [handleMessage_of_invalid a msg s err hv, Run.events, Event.isErrorReport,
      Event.isSuccessTrace]
  | none =>
    have hp := handleMessage_running a msg s hv hr
    have hno := loop_no_outcome_event a msg.Key.length 0 msg msg.Key [] s
    have h1 : (loop a msg.Key.length 0 msg msg.Key [] s).events.filter Event.isErrorReport
        = [] := by
      rw [List.filter_eq_nil_iff]
      intro e he
      simp [(hno e he).1]
    have h2 : (loop a msg.Key.length 0 msg msg.Key [] s).events.filter Event.isSuccessTrace
        = [] := by
      rw [List.filter_eq_nil_iff]
      intro e he
      simp [(hno e he).2]
    rw [handleMessage_loop_events a msg s hv, handleMessage_final a msg s hv]
    simp only [List.filter_append, h1, h2, hp]
    by_cases he : (loop a msg.Key.length 0 msg msg.Key [] s).errorList = []
    · simp [he, Event.isErrorReport, Event.isSuccessTrace]
    · simp [he, Event.isErrorReport, Event.isSuccessTrace]

/-- No `ValidateConfig` and no `Send` is recorded on a notifier type that is
missing from the registry. -/
theorem handleMessage_calls_registered {σ : Type} (a : Alerter σ) (msg : Message) (s : σ) :
    ∀ e ∈ (handleMessage a msg s).events,
      (∀ ty cfg r, e = .validateConfig ty cfg r → ∃ n, a.Alerters ty = some n) ∧
      (∀ ty m cfg r, e = .send ty m cfg r → ∃ n, a.Alerters ty = some n) := by
  intro e he
  cases hv : validateMessage msg with
  | some err =>
    simp [handleMessage_of_invalid a msg s err hv, Run.events] at he
    subst he
    simp
  | none =>
    rw [handleMessage_loop_events a msg s hv, List.mem_append] at he
    rcases he with he | he
    · simp only [LoopResult.events, List.mem_flatten, List.mem_map] at he
      obtain ⟨es, ⟨it, hit, rfl⟩, he⟩ := he
      obtain ⟨m, k, s1, rfl⟩ := loop_iterations_mem a _ _ _ _ _ _ it hit
      exact iteration_calls_registered a m k s1 e he
    · rw [handleMessage_final a msg s hv] at he
      by_cases hp : (loop a msg.Key.length 0 msg msg.Key [] s).panicked = true
      · simp [hp] at he
      · by_cases hl : (loop a msg.Key.length 0 msg msg.Key [] s).errorList = []
        · simp [hp, hl] at he
          subst he
          simp
        · simp [hp, hl] at he
          subst he
          simp

/-! ## Runs whose notifiers do not write through the pointers they are handed -/

theorem applyWrites_nil (ranged : List String) : applyWrites ranged [] = ranged := rfl

theorem iteration_keyWrites {σ : Type} (a : Alerter σ) (hk : a.keepsKeys) (msg : Message)
    (k : String) (s : σ) : (iteration a msg k s).keyWrites = [] := by
  rcases iteration_cases a msg k s with ⟨_, h⟩ | ⟨_, _, h⟩ | ⟨_, _, _, _, _, _, h⟩ |
    ⟨_, _, _, _, _, _, h⟩ | ⟨_, _, n2, _, _, _, _, hn2, _, h⟩ | ⟨_, _, n2, _, _, _, hn2, _, h⟩ <;>
  rw [h]
  · exact hk _ n2 hn2 _ _ _
  · exact hk _ n2 hn2 _ _ _

theorem iteration_msg {σ : Type} (a : Alerter σ) (hm : a.keepsMessage) (msg : Message)
    (k : String) (s : σ) : (iteration a msg k s).msg = msg := by
  rcases iteration_cases a msg k s with ⟨_, h⟩ | ⟨_, _, h⟩ | ⟨_, _, _, _, _, _, h⟩ |
    ⟨_, _, _, _, _, _, h⟩ | ⟨_, _, n2, _, _, _, _, hn2, _, h⟩ | ⟨_, _, n2, _, _, _, hn2, _, h⟩ <;>
  rw [h]
  · exact hm _ n2 hn2 _ _ _
  · exact hm _ n2 hn2 _ _ _

/-- A pass that panics at the nil config has made no notifier call. -/
theorem iteration_panicked_calls {σ : Type} (a : Alerter σ) (hc : a.keepsConfig) (msg : Message)
    (k : String) (s : σ) (hp : (iteration a msg k s).panicked = true) :
    (iteration a msg k s).events.filter Event.isCall = [] := by
  obtain ⟨r, hl | ⟨t, hl⟩⟩ := loadAlerterConfig_events_shape a k msg s <;>
  rcases iteration_cases a msg k s with ⟨_, h⟩ | ⟨_, _, h⟩ | ⟨_, _, _, _, _, _, h⟩ |
    ⟨cfg, n, _, hn, hv, hn2, h⟩ | ⟨_, _, _, _, _, _, _, _, _, h⟩ |
    ⟨_, _, _, _, _, _, _, _, h⟩ <;>
  rw [h] at hp ⊢ <;> simp at hp <;>
  first
    | (rw [hc _ n hn cfg _ hv, hn] at hn2; cases hn2)
    | simp [hl, Event.isCall, Event.isValidateConfig, Event.isSend]

/-- The notifier calls of a pass that does not panic are those `expectedCalls`
lists for its key, and the pass leaves the message and the world state as
those calls left them. -/
theorem iteration_expected {σ : Type} (a : Alerter σ) (hc : a.keepsConfig) (msg : Message)
    (k : String) (rest : List String) (s : σ) (hp : (iteration a msg k s).panicked = false) :
    expectedCalls a msg (k :: rest) s
      = (iteration a msg k s).events.filter Event.isCall
        ++ expectedCalls a (iteration a msg k s).msg rest (iteration a msg k s).state := by
  obtain ⟨r, hl | ⟨t, hl⟩⟩ := loadAlerterConfig_events_shape a k msg s <;>
  rcases iteration_cases a msg k s with ⟨hres, h⟩ | ⟨e, hres, h⟩ | ⟨cfg, n, e, hres, hn, hv, h⟩ |
    ⟨cfg, n, hres, hn, hv, hn2, h⟩ | ⟨cfg, n, n2, e, hres, hn, hv, hn2, hs, h⟩ |
    ⟨cfg, n, n2, hres, hn, hv, hn2, hs, h⟩ <;>
  rw [h] at hp ⊢ <;> simp at hp <;>
  first
    | (simp [expectedCalls, hres, hl, Event.isCall, Event.isValidateConfig, Event.isSend]; done)
    | (simp [expectedCalls, hres, hn, hv, hl, Event.isCall, Event.isValidateConfig,
        Event.isSend]; done)
    | (have hcfg := hc _ n hn cfg _ hv
       rw [hcfg] at hn2 hs ⊢
       rw [hn] at hn2
       cases hn2
       simp [expectedCalls, hres, hn, hv, hs, hl, Event.isCall, Event.isValidateConfig,
        Event.isSend])

theorem drop_take_succ (ranged : List String) (i n : Nat) (k : String)
    (hk : ranged[i]? = some k) :
    (ranged.drop i).take (n + 1) = k :: (ranged.drop (i + 1)).take n := by
  have hlt : i < ranged.length := by
    by_contra hc
    rw [List.getElem?_eq_none (by omega)] at hk
    cases hk
  have hk2 : ranged[i] = k := by
    rw [List.getElem?_eq_getElem hlt] at hk
    exact Option.some.inj hk
  rw [List.drop_eq_getElem_cons hlt, List.take_succ_cons, hk2]

/-- The notifier calls of the loop are a prefix of those `expectedCalls` lists
for the keys it ranges over, and all of them when no pass panics. -/
theorem loop_calls {σ : Type} (a : Alerter σ) (hc : a.keepsConfig) (hk : a.keepsKeys) (n : Nat) :
    ∀ (i : Nat) (msg : Message) (ranged errs : List String) (s : σ),
      i + n ≤ ranged.length →
      (loop a n i msg ranged errs s).events.filter Event.isCall
        <+: expectedCalls a msg ((ranged.drop i).take n) s ∧
      ((loop a n i msg ranged errs s).panicked = false →
        (loop a n i msg ranged errs s).events.filter Event.isCall
          = expectedCalls a msg ((ranged.drop i).take n) s) := by
  induction n with
  | zero =>
    intro i msg ranged errs s _
    simp [loop_zero, LoopResult.events, expectedCalls]
  | succ n ih =>
    intro i msg ranged errs s hlen
    obtain ⟨k, hkey⟩ := getElem?_of_lt_length ranged i (by omega)
    rw [drop_take_succ ranged i n k hkey]
    by_cases hp : (iteration a msg k s).panicked = true
    · rw [loop_succ_panicked a n i msg ranged errs s k hkey hp]
      simp [LoopResult.events, iteration_panicked_calls a hc msg k s hp]
    · simp at hp
      rw [loop_succ_running a n i msg ranged errs s k hkey hp,
        iteration_expected a hc msg k _ s hp]
      have hw := iteration_keyWrites a hk msg k s
      have := ih (i + 1) (iteration a msg k s).msg
        (applyWrites ranged (iteration a msg k s).keyWrites)
        (errs ++ (iteration a msg k s).errorMessage.toList) (iteration a msg k s).state
        (by rw [applyWrites_length]; omega)
      rw [hw, applyWrites_nil] at this ⊢
      simp only [LoopResult.events, List.map_cons, List.flatten_cons, List.filter_append] at this ⊢
      refine ⟨(List.prefix_append_right_inj _).2 this.1, ?_⟩
      intro hrun
      rw [this.2 hrun]

/-- With notifiers that write no element of `msg.Key`, the passes follow the
array the loop ranges over. -/
theorem loop_keys {σ : Type} (a : Alerter σ) (hk : a.keepsKeys) (n : Nat) :
    ∀ (i : Nat) (msg : Message) (ranged errs : List String) (s : σ),
      i + n ≤ ranged.length →
      (loop a n i msg ranged errs s).iterations.map (·.key) <+: (ranged.drop i).take n ∧
      ((loop a n i msg ranged errs s).panicked = false →
        (loop a n i msg ranged errs s).iterations.map (·.key) = (ranged.drop i).take n) := by
  induction n with
  | zero =>
    intro i msg ranged errs s _
    simp [loop_zero]
  | succ n ih =>
    intro i msg ranged errs s hlen
    obtain ⟨k, hkey⟩ := getElem?_of_lt_length ranged i (by omega)
    rw [drop_take_succ ranged i n k hkey]
    by_cases hp : (iteration a msg k s).panicked = true
    · rw [loop_succ_panicked a n i msg ranged errs s k hkey hp]
      simp [iteration_key]
    · simp at hp
      rw [loop_succ_running a n i msg ranged errs s k hkey hp]
      have hw := iteration_keyWrites a hk msg k s
      have := ih (i + 1) (iteration a msg k s).msg
        (applyWrites ranged (iteration a msg k s).keyWrites)
        (errs ++ (iteration a msg k s).errorMessage.toList) (iteration a msg k s).state
        (by rw [applyWrites_length]; omega)
      rw [hw, applyWrites_nil] at this ⊢
      simp only [List.map_cons, iteration_key, List.cons_prefix_cons, true_and,
        List.cons.injEq]
      exact this

/-- With notifiers that write no element of `msg.Key`, the store is asked for
a prefix of the keys of the message, in order, once each; for all of them when
no pass panics. -/
theorem handleMessage_fetchedKeys {σ : Type} (a : Alerter σ) (msg : Message) (s : σ)
    (hk : a.keepsKeys) (hv : validateMessage msg = none) :
    fetchedKeys (handleMessage a msg s).events <+: msg.Key ∧
    ((handleMessage a msg s).outcome ≠ .panicked →
      fetchedKeys (handleMessage a msg s).events = msg.Key) := by
  have hfin := (handleMessage_final_no_call a msg s).2.2.2
  have hev : fetchedKeys (handleMessage a msg s).events
      = (loop a msg.Key.length 0 msg msg.Key [] s).iterations.map (·.key) := by
    rw [handleMessage_loop_events a msg s hv, ← loop_fetchedKeys]
    simp only [fetchedKeys, List.filterMap_append] at hfin ⊢
    rw [hfin, List.append_nil]
  have hkeys := loop_keys a hk msg.Key.length 0 msg msg.Key [] s (by omega)
  simp only [List.drop_zero, List.take_length] at hkeys
  rw [hev]
  exact ⟨hkeys.1, fun hr => hkeys.2 (handleMessage_running a msg s hv hr)⟩

/-! ## Splitting the Key sequence -/

theorem loadAlerterConfig_withKey {σ : Type} (a : Alerter σ) (k : String) (msg : Message)
    (keys : List String) (s : σ) :
    loadAlerterConfig a k { msg with Key := keys } s = loadAlerterConfig a k msg s := rfl

/-- With notifiers that leave the message as it was and whose `Send` error does
not depend on the Key sequence, a pass records the same entry, ends the same
way and makes the same `Send` call, apart from the Key sequence inside the
message, whatever the Key sequence of the message is. -/
theorem iteration_withKey (a : Alerter Unit) (hm : a.keepsMessage) (hi : a.sendIgnoresKey)
    (msg : Message)
    (keys : List String) (k : String) :
    (iteration a { msg with Key := keys } k ()).errorMessage
      = (iteration a msg k ()).errorMessage ∧
    (iteration a { msg with Key := keys } k ()).panicked = (iteration a msg k ()).panicked ∧
    sendCalls (iteration a { msg with Key := keys } k ()).events
      = sendCalls (iteration a msg k ()).events := by
  obtain ⟨r, hl | ⟨t, hl⟩⟩ := loadAlerterConfig_events_shape a k msg () <;>
  · simp only [iteration, loadAlerterConfig_withKey]
    rcases hres : (loadAlerterConfig a k msg ()).result with cfg | e | _
    · simp only
      rcases hn : a.Alerters cfg.Type_ with _ | n
      · simp [sendCalls, hl]
      · simp only
        rcases hv : (n.ValidateConfig cfg (loadAlerterConfig a k msg ()).state).err with _ | e
        · simp only
          rcases hn2 : a.Alerters
              (n.ValidateConfig cfg (loadAlerterConfig a k msg ()).state).cfg.Type_ with _ | n2
          · simp [sendCalls, hl]
          · simp only
            have hie := hi _ n2 hn2 msg keys
              (n.ValidateConfig cfg (loadAlerterConfig a k msg ()).state).cfg
              (n.ValidateConfig cfg (loadAlerterConfig a k msg ()).state).state
            rcases hs : (n2.Send msg
                (n.ValidateConfig cfg (loadAlerterConfig a k msg ()).state).cfg
                (n.ValidateConfig cfg (loadAlerterConfig a k msg ()).state).state).err
              with _ | e
            · rw [hs] at hie
              simp [hie, sendCalls, hl]
            · rw [hs] at hie
              have hm1 := hm _ n2 hn2 msg
                (n.ValidateConfig cfg (loadAlerterConfig a k msg ()).state).cfg
                (n.ValidateConfig cfg (loadAlerterConfig a k msg ()).state).state
              have hm2 := hm _ n2 hn2 { msg with Key := keys }
                (n.ValidateConfig cfg (loadAlerterConfig a k msg ()).state).cfg
                (n.ValidateConfig cfg (loadAlerterConfig a k msg ()).state).state
              simp [hie, sendCalls, hl, hm1, hm2]
        · simp [sendCalls, hl]
    · simp [sendCalls, hl]
    · simp [sendCalls, hl]


/-- What two loops have in common when they agree on the entries recorded, on
how they are left and on the `Send` calls apart from the Key sequence inside
the message. -/
theorem loop_withKey (a : Alerter Unit) (hm : a.keepsMessage) (hk : a.keepsKeys)
    (hi : a.sendIgnoresKey) (keys : List String) (n : Nat) :
    ∀ (i j : Nat) (msg : Message) (ranged ranged2 errs : List String),
      i + n ≤ ranged.length → j + n ≤ ranged2.length →
      (ranged.drop i).take n = (ranged2.drop j).take n →
      (loop a n j { msg with Key := keys } ranged2 errs ()).errorList
        = (loop a n i msg ranged errs ()).errorList ∧
      (loop a n j { msg with Key := keys } ranged2 errs ()).panicked
        = (loop a n i msg ranged errs ()).panicked ∧
      sendCalls (loop a n j { msg with Key := keys } ranged2 errs ()).events
        = sendCalls (loop a n i msg ranged errs ()).events := by
  induction n with
  | zero =>
    intro i j msg ranged ranged2 errs _ _ _
    simp [loop_zero, LoopResult.events]
  | succ n ih =>
    intro i j msg ranged ranged2 errs hlen hlen2 heq
    obtain ⟨k, hkey⟩ := getElem?_of_lt_length ranged i (by omega)
    obtain ⟨k2, hkey2⟩ := getElem?_of_lt_length ranged2 j (by omega)
    rw [drop_take_succ ranged i n k hkey, drop_take_succ ranged2 j n k2 hkey2] at heq
    obtain ⟨hkk, htail⟩ := List.cons.inj heq
    subst hkk
    obtain ⟨he, hp, hs⟩ := iteration_withKey a hm hi msg keys k
    by_cases hpan : (iteration a msg k ()).panicked = true
    · have hpan2 : (iteration a { msg with Key := keys } k ()).panicked = true := by
        rw [hp, hpan]
      rw [loop_succ_panicked a n i msg ranged errs () k hkey hpan,
        loop_succ_panicked a n j _ ranged2 errs () k hkey2 hpan2]
      simp only [LoopResult.events, List.map_cons, List.map_nil, List.flatten_cons,
        List.flatten_nil, List.append_nil]
      exact ⟨trivial, trivial, hs⟩
    · simp at hpan
      have hpan2 : (iteration a { msg with Key := keys } k ()).panicked = false := by
        rw [hp, hpan]
      rw [loop_succ_running a n i msg ranged errs () k hkey hpan,
        loop_succ_running a n j _ ranged2 errs () k hkey2 hpan2]
      rw [iteration_keyWrites a hk, iteration_keyWrites a hk, iteration_msg a hm,
        iteration_msg a hm, applyWrites_nil, applyWrites_nil, he]
      have := ih (i + 1) (j + 1) msg ranged ranged2
        (errs ++ (iteration a msg k ()).errorMessage.toList) (by omega) (by omega) htail
      simp only [LoopResult.events, List.map_cons, List.flatten_cons, sendCalls,
        List.filterMap_append] at this hs ⊢
      refine ⟨this.1, this.2.1, ?_⟩
      rw [hs, this.2.2]

/-- With notifiers that leave the message and its keys as they were, the loop
over `n1 + n2` elements is the loop over the first `n1` followed, when that one
was left normally, by the loop over the next `n2`. -/
theorem loop_split {σ : Type} (a : Alerter σ) (hm : a.keepsMessage) (hk : a.keepsKeys)
    (n2 : Nat) (n1 : Nat) :
    ∀ (i : Nat) (msg : Message) (ranged errs : List String) (s : σ),
      i + n1 + n2 ≤ ranged.length →
      (loop a n1 i msg ranged errs s).panicked = false →
      (loop a (n1 + n2) i msg ranged errs s).iterations
        = (loop a n1 i msg ranged errs s).iterations
          ++ (loop a n2 (i + n1) msg ranged (loop a n1 i msg ranged errs s).errorList
                (loop a n1 i msg ranged errs s).state).iterations ∧
      (loop a (n1 + n2) i msg ranged errs s).errorList
        = (loop a n2 (i + n1) msg ranged (loop a n1 i msg ranged errs s).errorList
                (loop a n1 i msg ranged errs s).state).errorList ∧
      (loop a (n1 + n2) i msg ranged errs s).panicked
        = (loop a n2 (i + n1) msg ranged (loop a n1 i msg ranged errs s).errorList
                (loop a n1 i msg ranged errs s).state).panicked := by
  induction n1 with
  | zero =>
    intro i msg ranged errs s _ _
    simp [loop_zero]
  | succ n1 ih =>
    intro i msg ranged errs s hlen h
    obtain ⟨k, hkey⟩ := getElem?_of_lt_length ranged i (by omega)
    by_cases hp : (iteration a msg k s).panicked = true
    · rw [loop_succ_panicked a n1 i msg ranged errs s k hkey hp] at h
      simp at h
    · simp at hp
      have e1 : n1 + 1 + n2 = (n1 + n2) + 1 := by omega
      have e2 : i + (n1 + 1) = (i + 1) + n1 := by omega
      rw [loop_succ_running a n1 i msg ranged errs s k hkey hp] at h ⊢
      rw [e1, loop_succ_running a (n1 + n2) i msg ranged errs s k hkey hp, e2]
      rw [iteration_keyWrites a hk, applyWrites_nil, iteration_msg a hm] at h ⊢
      have := ih (i + 1) msg ranged (errs ++ (iteration a msg k s).errorMessage.toList)
        (iteration a msg k s).state (by omega) h
      simp only [List.cons_append, List.cons.injEq, true_and]
      exact this

/-! ## Validation (C1, C2) -/

theorem validTypes_contains (ty : String) :
    StringSliceContains validTypes ty = true
      ↔ ty = "resolve" ∨ ty = "warning" ∨ ty = "critical" := by
  simp only [StringSliceContains, validTypes, List.contains_eq_any_beq, List.any_cons,
    List.any_nil, Bool.or_false, Bool.or_eq_true, beq_iff_eq]
  tauto

theorem validateMessage_eq_none_iff (msg : Message) :
    validateMessage msg = none ↔
      msg.Key ≠ [] ∧ msg.Source ≠ "" ∧ msg.Contents ≠ none ∧
        (msg.Type_ = "resolve" ∨ msg.Type_ = "warning" ∨ msg.Type_ = "critical") := by
  have ht := validTypes_contains msg.Type_
  unfold validateMessage
  by_cases h1 : msg.Key = []
  · simp [h1]
  · by_cases h2 : msg.Source = ""
    · simp [h1, h2]
    · by_cases h3 : msg.Contents = none
      · simp [h1, h2, h3]
      · by_cases h4 : StringSliceContains validTypes msg.Type_ = true
        · simp [h1, h2, h3, h4, ht.1 h4]
        · have h5 : ¬ (msg.Type_ = "resolve" ∨ msg.Type_ = "warning"
              ∨ msg.Type_ = "critical") := fun h => h4 (ht.2 h)
          simp [h1, h2, h3, h4, h5]

/-- C1. `validateMessage` returns an error exactly when the Key sequence is
empty, or Source is the empty string, or Contents is nil, or Type is none of
"resolve", "warning", "critical"; it returns success for every other message,
so a message whose Contents is present but empty is accepted. -/
theorem validateMessage_rejects_iff (msg : Message) :
    ((∃ err, validateMessage msg = some err) ↔
      (msg.Key = [] ∨ msg.Source = "" ∨ msg.Contents = none ∨
        ¬ (msg.Type_ = "resolve" ∨ msg.Type_ = "warning" ∨ msg.Type_ = "critical"))) ∧
    (validateMessage msg = none ↔
      (msg.Key ≠ [] ∧ msg.Source ≠ "" ∧ (∃ contents, msg.Contents = some contents) ∧
        (msg.Type_ = "resolve" ∨ msg.Type_ = "warning" ∨ msg.Type_ = "critical"))) := by
  have h := validateMessage_eq_none_iff msg
  constructor
  · rw [← Option.isSome_iff_exists, ← Option.ne_none_iff_isSome, Ne, h]
    tauto
  · rw [h, Option.ne_none_iff_exists']

/-- C2. A message that fails validation (empty Key sequence, empty Source, nil
Contents or unrecognized Type) makes `handleMessage` hand exactly one entry to
the error-reporting collaborator and do nothing else: its whole event log is
that one entry, so the store is not asked and no notifier has `ValidateConfig`
or `Send` called; the world state is untouched and the validation error is
returned. -/
theorem handleMessage_invalid_reports_once {σ : Type} (a : Alerter σ) (msg : Message) (s : σ)
    (h : msg.Key = [] ∨ msg.Source = "" ∨ msg.Contents = none ∨
      ¬ (msg.Type_ = "resolve" ∨ msg.Type_ = "warning" ∨ msg.Type_ = "critical")) :
    ∃ err, validateMessage msg = some err ∧
      (handleMessage a msg s).events = [.addWithErrorLog "error"
        (a.Identifier ++ ": Unable to validate message " ++ msg.uuid ++ ": " ++ err)] ∧
      ((handleMessage a msg s).events.filter Event.isErrorReport).length = 1 ∧
      (∀ e ∈ (handleMessage a msg s).events,
        e.isFetch = false ∧ e.isValidateConfig = false ∧ e.isSend = false) ∧
      (handleMessage a msg s).state = s ∧
      (handleMessage a msg s).outcome = .returned (some err) := by
  have hne : validateMessage msg ≠ none := by
    rw [Ne, validateMessage_eq_none_iff]
    tauto
  obtain ⟨err, herr⟩ := Option.ne_none_iff_exists'.1 hne
  refine ⟨err, herr, ?_⟩
  simp [handleMessage_of_invalid a msg s err herr, Run.events, Event.isErrorReport,
    Event.isFetch, Event.isValidateConfig, Event.isSend]

theorem handleMessage_invalid_reports_once_witness :
    ∃ err, validateMessage (exampleMessage []) = some err ∧
      (handleMessage exampleAlerter (exampleMessage []) ()).events = [.addWithErrorLog "error"
        ("alerter" ++ ": Unable to validate message " ++ "u-1" ++ ": " ++ err)] ∧
      ((handleMessage exampleAlerter (exampleMessage []) ()).events.filter
        Event.isErrorReport).length = 1 ∧
      (∀ e ∈ (handleMessage exampleAlerter (exampleMessage []) ()).events,
        e.isFetch = false ∧ e.isValidateConfig = false ∧ e.isSend = false) ∧
      (handleMessage exampleAlerter (exampleMessage []) ()).state = () ∧
      (handleMessage exampleAlerter (exampleMessage []) ()).outcome = .returned (some err) :=
  handleMessage_invalid_reports_once exampleAlerter (exampleMessage []) () (Or.inl rfl)

/-! ## The example engine keeps to the notifier contract -/

theorem exampleAlerter_keepsConfig : exampleAlerter.keepsConfig := by
  intro ty n hn cfg s hv
  simp only [exampleAlerter] at hn
  split_ifs at hn <;> cases hn
  · rfl
  · rfl
  · simp only [email] at hv ⊢
    split
    · split <;> rfl
    · rfl

theorem exampleAlerter_keepsKeys : exampleAlerter.keepsKeys := by
  intro ty n hn msg cfg s
  simp only [exampleAlerter] at hn
  split_ifs at hn <;> cases hn <;> rfl

theorem exampleAlerter_keepsMessage : exampleAlerter.keepsMessage := by
  intro ty n hn msg cfg s
  simp only [exampleAlerter] at hn
  split_ifs at hn <;> cases hn <;> rfl

theorem exampleAlerter_sendIgnoresKey : exampleAlerter.sendIgnoresKey := by
  intro ty n hn msg keys cfg s
  simp only [exampleAlerter] at hn
  split_ifs at hn <;> cases hn <;> rfl

/-! ## The notifier calls of a run (C7) -/

/-- C7, counterexample. Three runs on valid messages whose notifier calls are
not those the claim describes. With `rerouter`, whose `ValidateConfig` returns
no error and sets the config's type to `email`, the `Send` for `svc-a` is made
on `email` with the rewritten config, not on the notifier registered under the
resolved type `slack` with the resolved config. With `retargeter`, whose `Send`
writes `msg.Key[1]`, the key `svc-page` of the message is never resolved and
nothing is sent for it. With the payload `null` under `null-key`, the run ends
at that key and `svc-a`, which resolves and validates, is never sent. -/
theorem handleMessage_calls_counterexample :
    (validateMessage (exampleMessage ["svc-a"]) = none ∧
      (handleMessage reroutingAlerter (exampleMessage ["svc-a"]) ()).events.filter Event.isCall
        = [.validateConfig "slack" slackConfig none,
           .send "email" (exampleMessage ["svc-a"]) { slackConfig with Type_ := "email" } none] ∧
      expectedCalls reroutingAlerter (exampleMessage ["svc-a"]) ["svc-a"] ()
        = [.validateConfig "slack" slackConfig none,
           .send "slack" (exampleMessage ["svc-a"]) slackConfig none]) ∧
    (validateMessage (exampleMessage ["svc-a", "svc-page"]) = none ∧
      (handleMessage retargetingAlerter (exampleMessage ["svc-a", "svc-page"]) ()).events.filter
          Event.isCall
        = [.validateConfig "slack" slackConfig none,
           .send "slack" (exampleMessage ["svc-a", "svc-page"]) slackConfig none] ∧
      expectedCalls retargetingAlerter (exampleMessage ["svc-a", "svc-page"])
          ["svc-a", "svc-page"] ()
        = [.validateConfig "slack" slackConfig none,
           .send "slack" (exampleMessage ["svc-a", "svc-page"]) slackConfig none,
           .validateConfig "pagerduty" pagerdutyConfig none,
           .send "pagerduty" (exampleMessage ["svc-a", "nope"]) pagerdutyConfig
             (some "connection refused")]) ∧
    (validateMessage (exampleMessage ["null-key", "svc-a"]) = none ∧
      (handleMessage exampleAlerter (exampleMessage ["null-key", "svc-a"]) ()).events.filter
          Event.isCall = [] ∧
      expectedCalls exampleAlerter (exampleMessage ["null-key", "svc-a"]) ["null-key", "svc-a"] ()
        = [.validateConfig "slack" slackConfig none,
           .send "slack" (exampleMessage ["null-key", "svc-a"]) slackConfig none]) := by
  decide

/-- C7, amended. For a valid message and notifiers that do not write through
the pointers they are handed, in that a `ValidateConfig` that returns no error
has left the config as it was and no `Send` writes an element of `msg.Key`:
the `ValidateConfig` and `Send` calls of a run of `handleMessage` are, in
order and with their arguments, a prefix of the calls `expectedCalls` lists
for the Key sequence of the message, and they are all of those calls when the
run does not panic. In `expectedCalls` a key has `ValidateConfig` called once
exactly when its config resolution returned a config, on the notifier
registered under that config's type, and has `Send` called once exactly when
that `ValidateConfig` returned no error, on the same notifier, with the
message and the resolved config. -/
theorem handleMessage_calls_as_described {σ : Type} (a : Alerter σ) (msg : Message) (s : σ)
    (hv : validateMessage msg = none) (hc : a.keepsConfig) (hk : a.keepsKeys) :
    (handleMessage a msg s).events.filter Event.isCall <+: expectedCalls a msg msg.Key s ∧
    ((handleMessage a msg s).outcome ≠ .panicked →
      (handleMessage a msg s).events.filter Event.isCall = expectedCalls a msg msg.Key s) := by
  have hfin := (handleMessage_final_no_call a msg s).1
  have hl := loop_calls a hc hk msg.Key.length 0 msg msg.Key [] s (by omega)
  simp only [List.drop_zero, List.take_length] at hl
  rw [handleMessage_loop_events a msg s hv, List.filter_append, hfin, List.append_nil]
  exact ⟨hl.1, fun hr => hl.2 (handleMessage_running a msg s hv hr)⟩

theorem handleMessage_calls_as_described_witness :
    validateMessage (exampleMessage ["svc-a", "svc-mail", "nope", "svc-page"]) = none ∧
    exampleAlerter.keepsConfig ∧ exampleAlerter.keepsKeys ∧
    ((handleMessage exampleAlerter (exampleMessage ["svc-a", "svc-mail", "nope", "svc-page"])
        ()).events.filter Event.isCall
      <+: expectedCalls exampleAlerter (exampleMessage ["svc-a", "svc-mail", "nope", "svc-page"])
        (exampleMessage ["svc-a", "svc-mail", "nope", "svc-page"]).Key () ∧
    ((handleMessage exampleAlerter (exampleMessage ["svc-a", "svc-mail", "nope", "svc-page"])
        ()).outcome ≠ .panicked →
      (handleMessage exampleAlerter (exampleMessage ["svc-a", "svc-mail", "nope", "svc-page"])
          ()).events.filter Event.isCall
        = expectedCalls exampleAlerter (exampleMessage ["svc-a", "svc-mail", "nope", "svc-page"])
          (exampleMessage ["svc-a", "svc-mail", "nope", "svc-page"]).Key ())) :=
  ⟨by decide, exampleAlerter_keepsConfig, exampleAlerter_keepsKeys,
    handleMessage_calls_as_described exampleAlerter
      (exampleMessage ["svc-a", "svc-mail", "nope", "svc-page"]) () (by decide)
      exampleAlerter_keepsConfig exampleAlerter_keepsKeys⟩

/-- The calls of the run of the witness, written out: one `ValidateConfig` per
resolved key, one `Send` per validated key, none for the key the store does
not know. -/
theorem handleMessage_calls_example :
    (handleMessage exampleAlerter (exampleMessage ["svc-a", "svc-mail", "nope", "svc-page"])
        ()).outcome = .returned none ∧
    (handleMessage exampleAlerter (exampleMessage ["svc-a", "svc-mail", "nope", "svc-page"])
        ()).events.filter Event.isCall
      = [.validateConfig "slack" slackConfig none,
         .send "slack" (exampleMessage ["svc-a", "svc-mail", "nope", "svc-page"]) slackConfig none,
         .validateConfig "email" emailConfig (some "option address is missing"),
         .validateConfig "pagerduty" pagerdutyConfig none,
         .send "pagerduty" (exampleMessage ["svc-a", "svc-mail", "nope", "svc-page"])
           pagerdutyConfig (some "connection refused")] := by
  decide

/-! ## Splitting the Key sequence into separate runs (C10) -/

theorem validateMessage_withKey (msg : Message) (keys : List String) (h1 : msg.Key ≠ [])
    (h2 : keys ≠ []) : validateMessage { msg with Key := keys } = validateMessage msg := by
  simp [validateMessage, h1, h2]

/-- C10, counterexample. Three splits for which the entries recorded for the
whole Key sequence are not those recorded for the first part followed by those
recorded for the second part, the store and the notifiers being fixed functions
of their arguments. With `relay`, whose `Send` error quotes the keys of the
message it is handed, the entries differ and so do the `Send` calls, which
carry the whole message. With `retargeter`, whose `Send` writes `msg.Key[1]`,
the second key of the whole run is not the key of the second part. With the
payload `null` under `null-key`, the whole run ends at that key and the entry
of the second part is missing. -/
theorem handleMessage_split_counterexample :
    ((handleMessage relayAlerter (exampleMessage ["svc-a", "svc-b"]) ()).errorList
      ≠ (handleMessage relayAlerter (exampleMessage ["svc-a"]) ()).errorList
        ++ (handleMessage relayAlerter (exampleMessage ["svc-b"]) ()).errorList ∧
    (handleMessage relayAlerter (exampleMessage ["svc-a", "svc-b"]) ()).events.filter Event.isSend
      ≠ (handleMessage relayAlerter (exampleMessage ["svc-a"]) ()).events.filter Event.isSend
        ++ (handleMessage relayAlerter (exampleMessage ["svc-b"]) ()).events.filter
            Event.isSend) ∧
    (handleMessage retargetingAlerter (exampleMessage ["svc-a", "svc-page"]) ()).errorList
      ≠ (handleMessage retargetingAlerter (exampleMessage ["svc-a"]) ()).errorList
        ++ (handleMessage retargetingAlerter (exampleMessage ["svc-page"]) ()).errorList ∧
    (handleMessage exampleAlerter (exampleMessage ["null-key", "nope"]) ()).errorList
      ≠ (handleMessage exampleAlerter (exampleMessage ["null-key"]) ()).errorList
        ++ (handleMessage exampleAlerter (exampleMessage ["nope"]) ()).errorList := by
  decide

/-- C10, amended. The store and the notifiers are fixed functions of their
arguments: there is no world state, no `Send` changes the message or writes an
element of `msg.Key`, and the error a `Send` returns does not depend on the Key
sequence of the message. Then for every message whose Key sequence is
`ks1 ++ ks2`, both parts non-empty, such that the run on the message with Key
sequence `ks1` does not panic: the entries recorded by `handleMessage` for the
message are those recorded for the message with Key sequence `ks1` followed by
those recorded for the message with Key sequence `ks2`, and likewise for the
`Send` calls, each taken as notifier type, message apart from its Key
sequence, config and returned error. -/
theorem handleMessage_split_separate_runs (a : Alerter Unit) (msg : Message)
    (ks1 ks2 : List String) (hm : a.keepsMessage) (hk : a.keepsKeys) (hi : a.sendIgnoresKey)
    (h1 : ks1 ≠ []) (h2 : ks2 ≠ []) (hkey : msg.Key = ks1 ++ ks2)
    (hr : (handleMessage a { msg with Key := ks1 } ()).outcome ≠ .panicked) :
    (handleMessage a msg ()).errorList
      = (handleMessage a { msg with Key := ks1 } ()).errorList
        ++ (handleMessage a { msg with Key := ks2 } ()).errorList ∧
    sendCalls (handleMessage a msg ()).events
      = sendCalls (handleMessage a { msg with Key := ks1 } ()).events
        ++ sendCalls (handleMessage a { msg with Key := ks2 } ()).events := by
  have hne : msg.Key ≠ [] := by
    rw [hkey]
    simp [h1]
  have hv1 := validateMessage_withKey msg ks1 hne h1
  have hv2 := validateMessage_withKey msg ks2 hne h2
  cases hv : validateMessage msg with
  | some err =>
    rw [hv] at hv1 hv2
    simp [handleMessage_of_invalid a msg () err hv, handleMessage_of_invalid a _ () err hv1,
      handleMessage_of_invalid a _ () err hv2, Run.events, sendCalls]
  | none =>
    rw [hv] at hv1 hv2
    have hp1 := handleMessage_running a _ () hv1 hr
    simp only [] at hp1
    -- the first part, inside the whole run and on its own
    have c1 := loop_withKey a hm hk hi ks1 ks1.length 0 0 msg (ks1 ++ ks2) ks1 []
      (by simp) (by simp) (by simp)
    rw [c1.2.1] at hp1
    -- the second part, inside the whole run and on its own
    have c2 := loop_withKey a hm hk hi ks2 ks2.length ks1.length 0 msg (ks1 ++ ks2) ks2 []
      (by simp) (by simp) (by simp)
    have hs := loop_split a hm hk ks2.length ks1.length 0 msg (ks1 ++ ks2) [] ()
      (by simp) hp1
    rw [loop_errs a ks2.length (0 + ks1.length) msg (ks1 ++ ks2)
      (loop a ks1.length 0 msg (ks1 ++ ks2) [] ()).errorList] at hs
    simp only [Nat.zero_add] at hs
    have hlen : msg.Key.length = ks1.length + ks2.length := by
      rw [hkey, List.length_append]
    constructor
    · rw [handleMessage_errorList a msg () hv, handleMessage_errorList a _ () hv1,
        handleMessage_errorList a _ () hv2, hlen, hkey, hs.2.1, c1.1, c2.1]
    · have f0 := (handleMessage_final_no_call a msg ()).2.2.1
      have f1 := (handleMessage_final_no_call a { msg with Key := ks1 } ()).2.2.1
      have f2 := (handleMessage_final_no_call a { msg with Key := ks2 } ()).2.2.1
      rw [handleMessage_loop_events a msg () hv, handleMessage_loop_events a _ () hv1,
        handleMessage_loop_events a _ () hv2]
      simp only [sendCalls, List.filterMap_append] at f0 f1 f2 c1 c2 ⊢
      rw [f0, f1, f2, List.append_nil, List.append_nil, List.append_nil, c1.2.2, c2.2.2]
      simp only [LoopResult.events, hkey, List.length_append]
      rw [hs.1]
      simp only [List.map_append, List.flatten_append, List.filterMap_append]

theorem handleMessage_split_separate_runs_witness :
    exampleAlerter.keepsMessage ∧ exampleAlerter.keepsKeys ∧ exampleAlerter.sendIgnoresKey ∧
    ["svc-mail", "svc-a"] ≠ [] ∧ ["nope", "svc-page"] ≠ [] ∧
    (exampleMessage ["svc-mail", "svc-a", "nope", "svc-page"]).Key
      = ["svc-mail", "svc-a"] ++ ["nope", "svc-page"] ∧
    (handleMessage exampleAlerter
      { exampleMessage ["svc-mail", "svc-a", "nope", "svc-page"] with
        Key := ["svc-mail", "svc-a"] } ()).outcome ≠ .panicked ∧
    ((handleMessage exampleAlerter (exampleMessage ["svc-mail", "svc-a", "nope", "svc-page"])
        ()).errorList
      = (handleMessage exampleAlerter
          { exampleMessage ["svc-mail", "svc-a", "nope", "svc-page"] with
            Key := ["svc-mail", "svc-a"] } ()).errorList
        ++ (handleMessage exampleAlerter
          { exampleMessage ["svc-mail", "svc-a", "nope", "svc-page"] with
            Key := ["nope", "svc-page"] } ()).errorList ∧
    sendCalls (handleMessage exampleAlerter
        (exampleMessage ["svc-mail", "svc-a", "nope", "svc-page"]) ()).events
      = sendCalls (handleMessage exampleAlerter
          { exampleMessage ["svc-mail", "svc-a", "nope", "svc-page"] with
            Key := ["svc-mail", "svc-a"] } ()).events
        ++ sendCalls (handleMessage exampleAlerter
          { exampleMessage ["svc-mail", "svc-a", "nope", "svc-page"] with
            Key := ["nope", "svc-page"] } ()).events) :=
  ⟨exampleAlerter_keepsMessage, exampleAlerter_keepsKeys, exampleAlerter_sendIgnoresKey,
    by decide, by decide, rfl, by decide,
    handleMessage_split_separate_runs exampleAlerter
      (exampleMessage ["svc-mail", "svc-a", "nope", "svc-page"])
      ["svc-mail", "svc-a"] ["nope", "svc-page"]
      exampleAlerter_keepsMessage exampleAlerter_keepsKeys exampleAlerter_sendIgnoresKey
      (by decide) (by decide) rfl (by decide)⟩

/-- The split of the witness, written out: two entries from the first part,
then one from each key of the second part, and the two `Send` calls. -/
theorem handleMessage_split_example :
    (handleMessage exampleAlerter (exampleMessage ["svc-mail", "svc-a"]) ()).errorList
      = ["Unable to validate alerter config for u-1: option address is missing"] ∧
    (handleMessage exampleAlerter (exampleMessage ["nope", "svc-page"]) ()).errorList
      = ["Unable to load alerter key for u-1: key not found",
         "Unable to complete message send for u-1: connection refused"] ∧
    sendCalls (handleMessage exampleAlerter
        (exampleMessage ["svc-mail", "svc-a", "nope", "svc-page"]) ()).events
      = [("slack", exampleMessage [], slackConfig, none),
         ("pagerduty", exampleMessage [], pagerdutyConfig, some "connection refused")] := by
  decide

/-! ## The aggregated report -/

/-- When no pass panics, on a valid message: the recorded entries are those of
the passes in order; a pass records an entry exactly when it made no successful
`Send`; each entry names the step that failed and carries the error that step
returned; and the run hands the error-reporting collaborator exactly one
report when an entry was recorded, none otherwise. The report carries the
number of entries, the Source and the Key sequence of the message as the run
left it, and the entries joined by "; ". -/
theorem handleMessage_report_of_returned {σ : Type} (a : Alerter σ) (msg : Message) (s : σ)
    (hv : validateMessage msg = none) (hr : (handleMessage a msg s).outcome ≠ .panicked) :
    (handleMessage a msg s).errorList
      = (handleMessage a msg s).iterations.filterMap (·.errorMessage) ∧
    (∀ it ∈ (handleMessage a msg s).iterations,
      (it.errorMessage = none ↔ ∃ e ∈ it.events, e.isSendOk = true)) ∧
    (∀ it ∈ (handleMessage a msg s).iterations, ∀ t, it.errorMessage = some t →
      (∃ uuid e, it.load = .err e ∧
        t = "Unable to load alerter key for " ++ uuid ++ ": " ++ e) ∨
      (∃ uuid ty cfg e, Event.validateConfig ty cfg (some e) ∈ it.events ∧
        t = "Unable to validate alerter config for " ++ uuid ++ ": " ++ e) ∨
      (∃ uuid ty m cfg e, Event.send ty m cfg (some e) ∈ it.events ∧
        t = "Unable to complete message send for " ++ uuid ++ ": " ++ e)) ∧
    ((handleMessage a msg s).errorList ≠ [] →
      (handleMessage a msg s).events.filter Event.isErrorReport
        = [.addWithErrorLog "error"
        (a.Identifier ++ ": Ran into " ++ toString (handleMessage a msg s).errorList.length
          ++ " errors during alert send for " ++ (handleMessage a msg s).msg.Source
          ++ " (alerters: " ++ ("[" ++ " ".intercalate (handleMessage a msg s).msg.Key ++ "]")
          ++ "); error list: " ++ "; ".intercalate (handleMessage a msg s).errorList)]) ∧
    ((handleMessage a msg s).errorList = [] →
      (handleMessage a msg s).events.filter Event.isErrorReport = []) := by
  have hp := handleMessage_running a msg s hv hr
  have hno := loop_no_outcome_event a msg.Key.length 0 msg msg.Key [] s
  have hfin := handleMessage_final a msg s hv
  have hlist := handleMessage_errorList a msg s hv
  have h1 : (loop a msg.Key.length 0 msg msg.Key [] s).events.filter Event.isErrorReport
      = [] := by
    rw [List.filter_eq_nil_iff]
    intro e he
    simp [(hno e he).1]
  refine ⟨?_, ?_, ?_, ?_, ?_⟩
  · rw [hlist, handleMessage_iterations a msg s hv, loop_errorList]
    simp
  · intro it hit
    rw [handleMessage_iterations a msg s hv] at hit
    have hnp : it.panicked = false := by
      by_contra hc
      simp at hc
      have := (loop_panicked_iff a msg.Key.length 0 msg msg.Key [] s).2 ⟨it, hit, hc⟩
      rw [hp] at this
      cases this
    obtain ⟨m, k, s1, rfl⟩ := loop_iterations_mem a _ _ _ _ _ _ it hit
    have hcount := iteration_entry_or_sendOk a m k s1
    rw [hnp] at hcount
    simp only [Bool.false_eq_true, if_false] at hcount
    cases hm : (iteration a m k s1).errorMessage with
    | none =>
      rw [hm] at hcount
      simp only [Option.toList, List.length_nil, Nat.add_zero] at hcount
      simp only [true_iff]
      have hpos : 0 < ((iteration a m k s1).events.filter Event.isSendOk).length := by omega
      obtain ⟨e, he⟩ := List.exists_mem_of_length_pos hpos
      rw [List.mem_filter] at he
      exact ⟨e, he.1, he.2⟩
    | some t =>
      rw [hm] at hcount
      simp only [Option.toList, List.length_singleton] at hcount
      have hz : (iteration a m k s1).events.filter Event.isSendOk = [] :=
        List.length_eq_zero.1 (by omega)
      constructor
      · intro h
        cases h
      · rintro ⟨e, he, hok⟩
        have : e ∈ (iteration a m k s1).events.filter Event.isSendOk :=
          List.mem_filter.2 ⟨he, hok⟩
        rw [hz] at this
        cases this
  · intro it hit t ht
    rw [handleMessage_iterations a msg s hv] at hit
    obtain ⟨m, k, s1, rfl⟩ := loop_iterations_mem a _ _ _ _ _ _ it hit
    rcases iteration_errorMessage a m k s1 t ht with ⟨e, h1, h2⟩ | ⟨ty, cfg, e, h1, h2⟩ |
      ⟨ty, cfg, e, h1, h2⟩
    · exact Or.inl ⟨_, e, h1, h2⟩
    · exact Or.inr (Or.inl ⟨_, ty, cfg, e, h1, h2⟩)
    · exact Or.inr (Or.inr ⟨_, ty, m, cfg, e, h1, h2⟩)
  · intro hne
    rw [hlist] at hne ⊢
    rw [handleMessage_loop_events a msg s hv, List.filter_append, h1, hfin]
    simp [hp, hne, Event.isErrorReport]
    rfl
  · intro he
    rw [hlist] at he
    rw [handleMessage_loop_events a msg s hv, List.filter_append, h1, hfin]
    simp [hp, he, Event.isErrorReport]

/-- The report of a run with two failing keys out of three, written out. -/
theorem handleMessage_report_example :
    (handleMessage exampleAlerter (exampleMessage ["svc-a", "svc-page", "nope"]) ()).final
      = [.addWithErrorLog "error"
          ("alerter: Ran into 2 errors during alert send for checker1 "
            ++ "(alerters: [svc-a svc-page nope]); error list: "
            ++ "Unable to complete message send for u-1: connection refused; "
            ++ "Unable to load alerter key for u-1: key not found")] := by
  decide

theorem handleMessage_counts_of_returned_example :
    ((handleMessage exampleAlerter (exampleMessage ["svc-a", "svc-mail"]) ()).events.filter
        Event.isSendOk).length
      + (handleMessage exampleAlerter (exampleMessage ["svc-a", "svc-mail"]) ()).errorList.length
      = (exampleMessage ["svc-a", "svc-mail"]).Key.length :=
  (handleMessage_counts_of_returned exampleAlerter (exampleMessage ["svc-a", "svc-mail"]) ()
    (by decide) (by decide)).1

theorem handleMessage_one_outcome_of_returned_example :
    ((handleMessage exampleAlerter (exampleMessage ["svc-a", "svc-mail"]) ()).events.filter
        Event.isErrorReport).length
      + ((handleMessage exampleAlerter (exampleMessage ["svc-a", "svc-mail"]) ()).events.filter
        Event.isSuccessTrace).length = 1 :=
  handleMessage_one_outcome_of_returned exampleAlerter (exampleMessage ["svc-a", "svc-mail"]) ()
    (by decide)

theorem handleMessage_fetchedKeys_example :
    fetchedKeys (handleMessage exampleAlerter (exampleMessage ["svc-a", "svc-mail"]) ()).events
      = (exampleMessage ["svc-a", "svc-mail"]).Key :=
  (handleMessage_fetchedKeys exampleAlerter (exampleMessage ["svc-a", "svc-mail"]) ()
    exampleAlerter_keepsKeys (by decide)).2 (by decide)

theorem handleMessage_report_of_returned_example :
    (handleMessage exampleAlerter (exampleMessage ["svc-a", "svc-page", "nope"]) ()).errorList
      = (handleMessage exampleAlerter (exampleMessage ["svc-a", "svc-page", "nope"])
          ()).iterations.filterMap (·.errorMessage) :=
  (handleMessage_report_of_returned exampleAlerter (exampleMessage ["svc-a", "svc-page", "nope"])
    () (by decide) (by decide)).1

/-! ## A payload that decodes to a nil config (C3, C4, C5, C6, C8, C9) -/

/-- C6, at the failing input. The store holds the JSON literal `null` under
`null-key`; the fetch succeeds and the payload decodes without error to a nil
config, so `loadAlerterConfig` returns neither an error nor a config: it ends in
the nil dereference of `alerterConfig.Type`. -/
theorem loadAlerterConfig_nil_config :
    (exampleAlerter.FetchAlerterConfig "null-key" ()).1 = .ok "null" ∧
    exampleAlerter.jsonUnmarshal "null" = .ok none ∧
    (loadAlerterConfig exampleAlerter "null-key" (exampleMessage ["null-key"]) ()).result
      = .nilDeref ∧
    (∀ e, (loadAlerterConfig exampleAlerter "null-key" (exampleMessage ["null-key"]) ()).result
      ≠ .err e) ∧
    (∀ cfg, (loadAlerterConfig exampleAlerter "null-key" (exampleMessage ["null-key"])
      ()).result ≠ .ok cfg) := by
  refine ⟨by decide, by decide, by decide, ?_, ?_⟩
  · intro e h
    have h2 : (loadAlerterConfig exampleAlerter "null-key" (exampleMessage ["null-key"])
        ()).result = .nilDeref := by decide
    rw [h2] at h
    cases h
  · intro cfg h
    have h2 : (loadAlerterConfig exampleAlerter "null-key" (exampleMessage ["null-key"])
        ()).result = .nilDeref := by decide
    rw [h2] at h
    cases h

/-- C8, at the failing input. A valid message whose second key resolves to the
payload `null`: the run sends the first key, fetches the second and panics; the
third key is never reached. -/
theorem handleMessage_nil_config_panics :
    validateMessage (exampleMessage ["svc-a", "null-key", "svc-page"]) = none ∧
    (handleMessage exampleAlerter (exampleMessage ["svc-a", "null-key", "svc-page"]) ()).outcome
      = .panicked ∧
    (handleMessage exampleAlerter (exampleMessage ["svc-a", "null-key", "svc-page"]) ()).events
      = [.fetch "svc-a" (.ok "\x7b\"type\":\"slack\"\x7d"),
         .validateConfig "slack" slackConfig none,
         .sendingTrace "alerter: Sending u-1 to alerter slack!",
         .send "slack" (exampleMessage ["svc-a", "null-key", "svc-page"]) slackConfig none,
         .fetch "null-key" (.ok "null")] := by
  decide

/-- C4, at the failing input. A valid message whose only key resolves to the
payload `null`: the whole event log of the run is the fetch; there is neither
an error report nor a success trace. -/
theorem handleMessage_nil_config_no_outcome_event :
    validateMessage (exampleMessage ["null-key"]) = none ∧
    (handleMessage exampleAlerter (exampleMessage ["null-key"]) ()).events
      = [.fetch "null-key" (.ok "null")] ∧
    (handleMessage exampleAlerter (exampleMessage ["null-key"]) ()).events.filter
      Event.isErrorReport = [] ∧
    (handleMessage exampleAlerter (exampleMessage ["null-key"]) ()).events.filter
      Event.isSuccessTrace = [] := by
  decide

/-- C3, at the failing input. A valid message with three keys of which one
(`svc-a`) passes all three steps: `nope` fails at the fetch and its entry is
recorded, `null-key` resolves to the payload `null`; the run ends without any
error report, so the recorded entry is never reported. -/
theorem handleMessage_nil_config_loses_report :
    validateMessage (exampleMessage ["nope", "svc-a", "null-key"]) = none ∧
    ((handleMessage exampleAlerter (exampleMessage ["nope", "svc-a", "null-key"]) ()).events.filter
      Event.isSendOk).length = 1 ∧
    (handleMessage exampleAlerter (exampleMessage ["nope", "svc-a", "null-key"]) ()).errorList
      = ["Unable to load alerter key for u-1: key not found"] ∧
    (handleMessage exampleAlerter (exampleMessage ["nope", "svc-a", "null-key"]) ()).final = [] ∧
    (handleMessage exampleAlerter (exampleMessage ["nope", "svc-a", "null-key"]) ()).events.filter
      Event.isErrorReport = [] := by
  decide

/-- C5, at the failing input. A valid message with keys `null-key`, `svc-a`:
the store is asked for `null-key` only; `svc-a`, which resolves and sends when
it is alone, is never attempted. -/
theorem handleMessage_nil_config_skips_later_keys :
    validateMessage (exampleMessage ["null-key", "svc-a"]) = none ∧
    fetchedKeys (handleMessage exampleAlerter (exampleMessage ["null-key", "svc-a"]) ()).events
      = ["null-key"] ∧
    fetchedKeys (handleMessage exampleAlerter (exampleMessage ["svc-a"]) ()).events
      = ["svc-a"] := by
  decide

/-- C9, at the failing input. A valid message with keys `svc-page`, `null-key`:
the key `svc-page` fails at the send step and its entry is recorded, then
`null-key` resolves to the payload `null` and the run panics. No error report
is handed to the error-reporting collaborator, so there is no report text that
carries the count, the Source, the Key sequence and the entry. -/
theorem handleMessage_nil_config_entry_unreported :
    validateMessage (exampleMessage ["svc-page", "null-key"]) = none ∧
    (handleMessage exampleAlerter (exampleMessage ["svc-page", "null-key"]) ()).errorList
      = ["Unable to complete message send for u-1: connection refused"] ∧
    (handleMessage exampleAlerter (exampleMessage ["svc-page", "null-key"]) ()).events.filter
      Event.isErrorReport = [] ∧
    (handleMessage exampleAlerter (exampleMessage ["svc-page", "null-key"]) ()).outcome
      = .panicked := by
  decide

end alerter
